import Mathlib

/-!
Verification of the Katiba254 constitution parser
(`parse_constitution.py`) against its natural-language specification.

The Python source is shallowly embedded here.  Python `str` values are
modelled as `List Char`; the regular expressions of the source are
unfolded into the deterministic scanners they denote (each regex in the
source is simple enough that greedy/lazy backtracking reduces to a
deterministic scan, except for the county pattern where the backtracking
order is reproduced explicitly).  Python's `str.strip`, `str.split`,
`str.startswith`, `' '.join`, dict construction and truthiness are
modelled by the `py*` helpers below; `str.strip`/`\s` are modelled on
the six ASCII whitespace characters, and `str.lower` on ASCII letters,
which is exact for every string the parser compares against its
reference table.
-/

namespace Katiba

/-- The six ASCII whitespace characters recognised by Python's `str.strip`
and by `\s` on ASCII input. -/
def isPySpace (c : Char) : Bool :=
  c = ' ' || c = '\t' || c = '\n' || c = '\r' || c = '\x0b' || c = '\x0c'

/-- Python `str.strip()`: drop whitespace from both ends. -/
def pyStrip (l : List Char) : List Char :=
  ((l.dropWhile isPySpace).reverse.dropWhile isPySpace).reverse

/-- Python `a.startswith(b)`. -/
def pyStartsWith (a b : List Char) : Bool := b.isPrefixOf a

/-- Python `str(n)` for a non-negative integer: decimal digits, most
significant first.  `natToCharsGo` peels digits from the right; the
fuel argument (`n` itself, an upper bound on the digit count for
`n ≥ 1`) makes the recursion structural. -/
def natToCharsGo (fuel n : Nat) (acc : List Char) : List Char :=
  match fuel with
  | 0 => acc
  | fuel + 1 =>
    if n = 0 then acc
    else natToCharsGo fuel (n / 10) (Char.ofNat (48 + n % 10) :: acc)

def natToChars (n : Nat) : List Char :=
  if n = 0 then ['0'] else natToCharsGo n n []

/-- Python `int(s)` on a non-empty digit string. -/
def natOfDigits (ds : List Char) : Nat :=
  ds.foldl (fun a c => a * 10 + (c.toNat - 48)) 0

/-! ## Clause parser (`parse_clauses`) -/

/-- A sub-clause record `{"label": ..., "text": ...}`. -/
structure SubClause where
  label : Char
  text : List Char
deriving DecidableEq, Repr

/-- A clause record `{"number": ..., "text": ..., "subClauses": ...}`. -/
structure Clause where
  number : List Char
  text : List Char
  subClauses : List SubClause
deriving DecidableEq, Repr

/-- `re.match(r'^\((\d+)\)\s*(.*)$', line)`: an explicit clause marker.
Returns the clause number and the remainder of the line after the
closing parenthesis and any following whitespace. -/
def matchClause (l : List Char) : Option (Nat × List Char) :=
  match l with
  | '(' :: r =>
    let ds := r.takeWhile Char.isDigit
    if ds = [] then none
    else match r.drop ds.length with
      | ')' :: r2 => some (natOfDigits ds, r2.dropWhile isPySpace)
      | _ => none
  | _ => none

/-- The optional `(?:\()?` of the sub-clause pattern. -/
def stripOpenParen (l : List Char) : List Char :=
  match l with
  | '(' :: r => r
  | _ => l

/-- The optional `(?:\))?` of the sub-clause pattern. -/
def stripCloseParen (l : List Char) : List Char :=
  match l with
  | ')' :: r => r
  | _ => l

/-- `re.match(r'^(?:\()?([a-z])(?:\))?\s+(.+)$', line)`: a sub-clause
marker.  The optional parentheses and the greedy `\s+` are
deterministic here (see the regex analysis in the doc comment of this
file), so the match reduces to this scan. -/
def matchSub (l : List Char) : Option (Char × List Char) :=
  match stripOpenParen l with
  | c :: r2 =>
    if 'a' ≤ c && c ≤ 'z' then
      let r3 := stripCloseParen r2
      let txt := r3.dropWhile isPySpace
      if r3.length ≠ txt.length && txt ≠ [] then some (c, txt) else none
    else none
  | [] => none

/-- `re.match(r'^\(([ivx]+)\)\s*(.*)$', line)`: a sub-sub-clause
(lowercase roman numeral) marker.  Returns the numeral and the text
after the closing parenthesis and any whitespace. -/
def matchSubSub (l : List Char) : Option (List Char × List Char) :=
  match l with
  | '(' :: r =>
    let ns := r.takeWhile (fun c => c = 'i' || c = 'v' || c = 'x')
    if ns = [] then none
    else match r.drop ns.length with
      | ')' :: r2 => some (ns, r2.dropWhile isPySpace)
      | _ => none
  | _ => none

/-- `current_subclauses[-1]["text"] += suffix`. -/
def appendToLast (l : List SubClause) (suf : List Char) : List SubClause :=
  match l with
  | [] => []
  | [sc] => [⟨sc.label, sc.text ++ suf⟩]
  | sc :: b :: rest => sc :: appendToLast (b :: rest) suf

/-- Loop state of `parse_clauses`.  `acc` holds the flushed clauses in
order, each paired with `true` when it was opened by an explicit
`(N)` marker (rule 1) and `false` when it was opened implicitly
(rule 4); `cur` carries the same flag for the open clause.  The flag
is bookkeeping for stating invariants; erasing it recovers the Python
state exactly. -/
structure PCState where
  acc : List (Clause × Bool)
  cur : Option (Nat × Bool)
  text : List (List Char)
  subs : List SubClause
  implicit : Nat
deriving DecidableEq, Repr

def pcInit : PCState := ⟨[], none, [], [], 1⟩

/-- Flushing the open clause: `{"number": str(n), "text":
' '.join(text).strip(), "subClauses": subs}` appended to the output. -/
def flushAcc (s : PCState) : List (Clause × Bool) :=
  match s.cur with
  | none => s.acc
  | some (n, ex) =>
    s.acc ++ [(⟨natToChars n, pyStrip (List.intercalate [' '] s.text), s.subs⟩, ex)]

/-- One iteration of the `for line in article_lines` loop of
`parse_clauses`, with the source's rule order: blank / page marker /
explicit clause / sub-clause / sub-sub-clause / implicit clause /
continuation. -/
def pcStep (s : PCState) (raw : List Char) : PCState :=
  let line := pyStrip raw
  if line = [] then s
  else if pyStartsWith line ("Constitution of Kenya".toList) then s
  else match matchClause line with
  | some (n, rest) =>
    { acc := flushAcc s
      cur := some (n, true)
      text := if rest = [] then [] else [rest]
      subs := []
      implicit := n + 1 }
  | none =>
    match matchSub line, s.cur with
    | some (lab, txt), some _ => { s with subs := s.subs ++ [⟨lab, txt⟩] }
    | _, _ =>
      match matchSubSub line, s.subs with
      | some (ns, rest), _ :: _ =>
        { s with subs := appendToLast s.subs ((' ' :: '(' :: ns ++ [')', ' ']) ++ rest) }
      | _, _ =>
        match s.cur with
        | none =>
          { s with cur := some (s.implicit, false), implicit := s.implicit + 1,
                   text := [line], subs := [] }
        | some _ => { s with text := s.text ++ [line] }

/-- `parse_clauses` including the origin flag of each clause. -/
def parseClausesT (article_lines : List (List Char)) : List (Clause × Bool) :=
  flushAcc (article_lines.foldl pcStep pcInit)

/-- `parse_clauses(article_lines)`. -/
def parse_clauses (article_lines : List (List Char)) : List Clause :=
  (parseClausesT article_lines).map Prod.fst

/-- The body lines of the spec's clause-parser example. -/
def c1Input : List (List Char) :=
  [("(1) First part.".toList), ("(2) (a) alpha text".toList),
   ("(b) beta text".toList), ("(i) sub-i text".toList)]

/-- The output the spec claims for `c1Input`. -/
def c1Claimed : List Clause :=
  [⟨"1".toList, "First part.".toList, []⟩,
   ⟨"2".toList, [], [⟨'a', "alpha text".toList⟩,
                     ⟨'b', "beta text (i) sub-i text".toList⟩]⟩]

/-! ## Title resolver (`normalize_title`, `get_article_number_map`,
and the numbering resolution of `parse_articles_improved`) -/

/-- Python dict assignment `d[k] = v`: update the value in place if the
key is present (keeping its position), else append. -/
def dictInsert {α β : Type} [DecidableEq α] (d : List (α × β)) (k : α) (v : β) :
    List (α × β) :=
  if d.any (fun p => p.1 = k) then d.map (fun p => if p.1 = k then (k, v) else p)
  else d ++ [(k, v)]

/-- Python dict construction from a literal's entries, in order. -/
def pyDictOf {α β : Type} [DecidableEq α] (l : List (α × β)) : List (α × β) :=
  l.foldl (fun d p => dictInsert d p.1 p.2) []

/-- Python `d.get(k)`. -/
def dictGet {α β : Type} [DecidableEq α] (d : List (α × β)) (k : α) : Option β :=
  (d.find? (fun p => p.1 = k)).map Prod.snd

/-- The 270 `"title": number` entries of the dict literal in
`get_article_number_map`, in source order, duplicates included.
Python dict construction (`pyDictOf`) collapses duplicate keys. -/
def articleMapEntries : List (List Char × Nat) :=
  [(("sovereignty of the people".toList), 1),
   (("supremacy of this constitution".toList), 2),
   (("defence of this constitution".toList), 3),
   (("declaration of the republic".toList), 4),
   (("territory of kenya".toList), 5),
   (("devolution and access to services".toList), 6),
   (("national, official and other languages".toList), 7),
   (("national, ofﬁcial and other languages".toList), 7),
   (("state and religion".toList), 8),
   (("national symbols and national days".toList), 9),
   (("national values and principles of governance".toList), 10),
   (("culture".toList), 11),
   (("entitlements of citizens".toList), 12),
   (("retention and acquisition of citizenship".toList), 13),
   (("citizenship by birth".toList), 14),
   (("citizenship by registration".toList), 15),
   (("dual citizenship".toList), 16),
   (("revocation of citizenship".toList), 17),
   (("legislation on citizenship".toList), 18),
   (("rights and fundamental freedoms".toList), 19),
   (("application of bill of rights".toList), 20),
   (("implementation of rights and fundamental freedoms".toList), 21),
   (("enforcement of bill of rights".toList), 22),
   (("authority of courts to uphold and enforce the bill of rights".toList), 23),
   (("limitation of rights and fundamental freedoms".toList), 24),
   (("limitation of rights or fundamental freedoms".toList), 24),
   (("fundamental rights and freedoms that may not be limited".toList), 25),
   (("right to life".toList), 26),
   (("equality and freedom from discrimination".toList), 27),
   (("human dignity".toList), 28),
   (("freedom and security of the person".toList), 29),
   (("slavery, servitude and forced labour".toList), 30),
   (("privacy".toList), 31),
   (("freedom of conscience, religion, belief and opinion".toList), 32),
   (("freedom of expression".toList), 33),
   (("freedom of the media".toList), 34),
   (("access to information".toList), 35),
   (("freedom of association".toList), 36),
   (("assembly, demonstration, picketing and petition".toList), 37),
   (("political rights".toList), 38),
   (("freedom of movement and residence".toList), 39),
   (("protection of right to property".toList), 40),
   (("labour relations".toList), 41),
   (("environment".toList), 42),
   (("economic and social rights".toList), 43),
   (("language and culture".toList), 44),
   (("family".toList), 45),
   (("consumer rights".toList), 46),
   (("fair administrative action".toList), 47),
   (("access to justice".toList), 48),
   (("rights of arrested persons".toList), 49),
   (("fair hearing".toList), 50),
   (("rights of persons detained, held in custody or imprisoned".toList), 51),
   (("interpretation of this part".toList), 52),
   (("interpretation of part".toList), 52),
   (("children".toList), 53),
   (("persons with disabilities".toList), 54),
   (("youth".toList), 55),
   (("minorities and marginalised groups".toList), 56),
   (("older members of society".toList), 57),
   (("state of emergency".toList), 58),
   (("kenya national human rights and equality commission".toList), 59),
   (("principles of land policy".toList), 60),
   (("classification of land".toList), 61),
   (("public land".toList), 62),
   (("community land".toList), 63),
   (("private land".toList), 64),
   (("landholding by non-citizens".toList), 65),
   (("regulation of land use and property".toList), 66),
   (("national land commission".toList), 67),
   (("legislation on land".toList), 68),
   (("obligations in respect of the environment".toList), 69),
   (("enforcement of environmental rights".toList), 70),
   (("agreements relating to natural resources".toList), 71),
   (("legislation relating to the environment".toList), 72),
   (("responsibilities of leadership".toList), 73),
   (("oath of office of state officers".toList), 74),
   (("conduct of state officers".toList), 75),
   (("financial probity of state officers".toList), 76),
   (("restriction on activities of state officers".toList), 77),
   (("citizenship and leadership".toList), 78),
   (("legislation to establish the ethics and anti-corruption commission".toList), 79),
   (("legislation on leadership".toList), 80),
   (("general principles for the electoral system".toList), 81),
   (("legislation on elections".toList), 82),
   (("registration as a voter".toList), 83),
   (("candidates for election and political parties to comply with code of conduct".toList), 84),
   (("eligibility to stand as an independent candidate".toList), 85),
   (("voting".toList), 86),
   (("electoral disputes".toList), 87),
   (("independent electoral and boundaries commission".toList), 88),
   (("delimitation of electoral units".toList), 89),
   (("allocation of party list seats".toList), 90),
   (("basic requirements for political parties".toList), 91),
   (("legislation on political parties".toList), 92),
   (("establishment of parliament".toList), 93),
   (("role of parliament".toList), 94),
   (("role of the national assembly".toList), 95),
   (("role of the senate".toList), 96),
   (("membership of the national assembly".toList), 97),
   (("membership of the senate".toList), 98),
   (("qualifications and disqualifications for election as member of parliament".toList), 99),
   (("promotion of representation of marginalised groups".toList), 100),
   (("election of members of parliament".toList), 101),
   (("term of parliament".toList), 102),
   (("vacation of office of member of parliament".toList), 103),
   (("right of recall".toList), 104),
   (("determination of questions of membership".toList), 105),
   (("speakers and deputy speakers of parliament".toList), 106),
   (("presiding in parliament".toList), 107),
   (("party leaders".toList), 108),
   (("exercise of legislative powers".toList), 109),
   (("bills concerning county government".toList), 110),
   (("special bills concerning county governments".toList), 111),
   (("ordinary bills concerning county governments".toList), 112),
   (("mediation committees".toList), 113),
   (("money bills".toList), 114),
   (("presidential assent and referral".toList), 115),
   (("coming into force of laws".toList), 116),
   (("powers, privileges and immunities".toList), 117),
   (("public access and participation".toList), 118),
   (("right to petition parliament".toList), 119),
   (("official languages of parliament".toList), 120),
   (("quorum".toList), 121),
   (("voting in parliament".toList), 122),
   (("decisions of senate".toList), 123),
   (("committees and standing orders".toList), 124),
   (("power to call for evidence".toList), 125),
   (("location of sittings of parliament".toList), 126),
   (("parliamentary service commission".toList), 127),
   (("clerks and staff of parliament".toList), 128),
   (("principles of executive authority".toList), 129),
   (("the national executive".toList), 130),
   (("authority of the president".toList), 131),
   (("functions of the president".toList), 132),
   (("power of mercy".toList), 133),
   (("exercise of presidential powers during temporary incumbency".toList), 134),
   (("decisions of the president".toList), 135),
   (("election of the president".toList), 136),
   (("qualifications and disqualifications for election as president".toList), 137),
   (("procedure at presidential election".toList), 138),
   (("death before assuming office".toList), 139),
   (("questions as to validity of presidential election".toList), 140),
   (("assumption of office of president".toList), 141),
   (("term of office of president".toList), 142),
   (("protection from legal proceedings".toList), 143),
   (("removal of president on grounds of incapacity".toList), 144),
   (("removal of president by impeachment".toList), 145),
   (("vacancy in the office of president".toList), 146),
   (("functions of the deputy president".toList), 147),
   (("election and swearing-in of deputy president".toList), 148),
   (("vacancy in the office of deputy president".toList), 149),
   (("removal of deputy president".toList), 150),
   (("remuneration and benefits of president and deputy president".toList), 151),
   (("cabinet".toList), 152),
   (("decisions, responsibility and accountability of the cabinet".toList), 153),
   (("secretary to the cabinet".toList), 154),
   (("principal secretaries".toList), 155),
   (("attorney-general".toList), 156),
   (("director of public prosecutions".toList), 157),
   (("removal and resignation of director of public prosecutions".toList), 158),
   (("judicial authority".toList), 159),
   (("independence of the judiciary".toList), 160),
   (("judicial offices and officers".toList), 161),
   (("system of courts".toList), 162),
   (("supreme court".toList), 163),
   (("court of appeal".toList), 164),
   (("high court".toList), 165),
   (("appointment of chief justice, deputy chief justice and other judges".toList), 166),
   (("tenure of office of the chief justice and other judges".toList), 167),
   (("removal from office".toList), 168),
   (("subordinate courts".toList), 169),
   (("kadhis\x27 courts".toList), 170),
   (("kadhis\x27 courts".toList), 170),
   (("establishment of the judicial service commission".toList), 171),
   (("functions of the judicial service commission".toList), 172),
   (("judiciary fund".toList), 173),
   (("objects of devolution".toList), 174),
   (("principles of devolved government".toList), 175),
   (("county governments".toList), 176),
   (("membership of county assembly".toList), 177),
   (("speaker of a county assembly".toList), 178),
   (("county executive committees".toList), 179),
   (("election of county governor and deputy county governor".toList), 180),
   (("removal of a county governor".toList), 181),
   (("vacancy in the office of county governor".toList), 182),
   (("functions of county executive committees".toList), 183),
   (("urban areas and cities".toList), 184),
   (("legislative authority of county assemblies".toList), 185),
   (("respective functions and powers of national and county governments".toList), 186),
   (("transfer of functions and powers between levels of government".toList), 187),
   (("boundaries of counties".toList), 188),
   (("cooperation between national and county governments".toList), 189),
   (("support for county governments".toList), 190),
   (("conflict of laws".toList), 191),
   (("suspension of a county government".toList), 192),
   (("suspension of county government".toList), 192),
   (("qualifications for election as member of county assembly".toList), 193),
   (("vacation of office of member of county assembly".toList), 194),
   (("county assembly power to summon witnesses".toList), 195),
   (("public participation and county assembly powers, privileges and immunities".toList), 196),
   (("county assembly gender balance and diversity".toList), 197),
   (("county government during transition".toList), 198),
   (("publication of county legislation".toList), 199),
   (("legislation on chapter".toList), 200),
   (("principles of public finance".toList), 201),
   (("equitable sharing of national revenue".toList), 202),
   (("equitable share and other financial laws".toList), 203),
   (("equalisation fund".toList), 204),
   (("consultation on financial legislation affecting counties".toList), 205),
   (("consolidated fund and other public funds".toList), 206),
   (("revenue funds for county governments".toList), 207),
   (("contingencies fund".toList), 208),
   (("power to impose taxes and charges".toList), 209),
   (("imposition of tax".toList), 210),
   (("borrowing by national government".toList), 211),
   (("borrowing by counties".toList), 212),
   (("loan guarantees by national government".toList), 213),
   (("public debt".toList), 214),
   (("commission on revenue allocation".toList), 215),
   (("functions of the commission on revenue allocation".toList), 216),
   (("division of revenue".toList), 217),
   (("annual division and allocation of revenue bills".toList), 218),
   (("transfer of equitable share".toList), 219),
   (("form, content and timing of budgets".toList), 220),
   (("budget estimates and annual appropriation bill".toList), 221),
   (("expenditure before annual budget is passed".toList), 222),
   (("supplementary appropriation".toList), 223),
   (("county appropriation bills".toList), 224),
   (("financial control".toList), 225),
   (("accounts and audit of public entities".toList), 226),
   (("procurement of public goods and services".toList), 227),
   (("controller of budget".toList), 228),
   (("auditor-general".toList), 229),
   (("salaries and remuneration commission".toList), 230),
   (("central bank of kenya".toList), 231),
   (("values and principles of public service".toList), 232),
   (("the public service commission".toList), 233),
   (("functions and powers of the public service commission".toList), 234),
   (("staffing of county governments".toList), 235),
   (("protection of public officers".toList), 236),
   (("teachers service commission".toList), 237),
   (("principles of national security".toList), 238),
   (("national security organs".toList), 239),
   (("establishment of the national security council".toList), 240),
   (("establishment of defence forces and defence council".toList), 241),
   (("establishment of kenya defence forces and defence council".toList), 241),
   (("establishment of national intelligence service".toList), 242),
   (("establishment of the national police service".toList), 243),
   (("objects and functions of the national police service".toList), 244),
   (("command of the national police service".toList), 245),
   (("national police service commission".toList), 246),
   (("other police services".toList), 247),
   (("application of chapter".toList), 248),
   (("objects, authority and funding of commissions and independent offices".toList), 249),
   (("composition, appointment and terms of office".toList), 250),
   (("removal from office".toList), 251),
   (("general functions and powers".toList), 252),
   (("incorporation of commissions and independent offices".toList), 253),
   (("reporting by commissions and independent offices".toList), 254),
   (("amendment of this constitution".toList), 255),
   (("amendment by parliamentary initiative".toList), 256),
   (("amendment by popular initiative".toList), 257),
   (("enforcement of this constitution".toList), 258),
   (("construing this constitution".toList), 259),
   (("interpretation".toList), 260),
   (("consequential legislation".toList), 261),
   (("transitional and consequential provisions".toList), 262),
   (("effective date".toList), 263),
   (("repeal of previous constitution".toList), 264)]

/-- The association list that Python dict construction yields for
`articleMapEntries`: 268 distinct keys in first-insertion order, each
with the last value written for it.  Proved equal to
`get_article_number_map` in `get_article_number_map_eq`. -/
def articleMapList : List (List Char × Nat) :=
  [(("sovereignty of the people".toList), 1),
   (("supremacy of this constitution".toList), 2),
   (("defence of this constitution".toList), 3),
   (("declaration of the republic".toList), 4),
   (("territory of kenya".toList), 5),
   (("devolution and access to services".toList), 6),
   (("national, official and other languages".toList), 7),
   (("national, ofﬁcial and other languages".toList), 7),
   (("state and religion".toList), 8),
   (("national symbols and national days".toList), 9),
   (("national values and principles of governance".toList), 10),
   (("culture".toList), 11),
   (("entitlements of citizens".toList), 12),
   (("retention and acquisition of citizenship".toList), 13),
   (("citizenship by birth".toList), 14),
   (("citizenship by registration".toList), 15),
   (("dual citizenship".toList), 16),
   (("revocation of citizenship".toList), 17),
   (("legislation on citizenship".toList), 18),
   (("rights and fundamental freedoms".toList), 19),
   (("application of bill of rights".toList), 20),
   (("implementation of rights and fundamental freedoms".toList), 21),
   (("enforcement of bill of rights".toList), 22),
   (("authority of courts to uphold and enforce the bill of rights".toList), 23),
   (("limitation of rights and fundamental freedoms".toList), 24),
   (("limitation of rights or fundamental freedoms".toList), 24),
   (("fundamental rights and freedoms that may not be limited".toList), 25),
   (("right to life".toList), 26),
   (("equality and freedom from discrimination".toList), 27),
   (("human dignity".toList), 28),
   (("freedom and security of the person".toList), 29),
   (("slavery, servitude and forced labour".toList), 30),
   (("privacy".toList), 31),
   (("freedom of conscience, religion, belief and opinion".toList), 32),
   (("freedom of expression".toList), 33),
   (("freedom of the media".toList), 34),
   (("access to information".toList), 35),
   (("freedom of association".toList), 36),
   (("assembly, demonstration, picketing and petition".toList), 37),
   (("political rights".toList), 38),
   (("freedom of movement and residence".toList), 39),
   (("protection of right to property".toList), 40),
   (("labour relations".toList), 41),
   (("environment".toList), 42),
   (("economic and social rights".toList), 43),
   (("language and culture".toList), 44),
   (("family".toList), 45),
   (("consumer rights".toList), 46),
   (("fair administrative action".toList), 47),
   (("access to justice".toList), 48),
   (("rights of arrested persons".toList), 49),
   (("fair hearing".toList), 50),
   (("rights of persons detained, held in custody or imprisoned".toList), 51),
   (("interpretation of this part".toList), 52),
   (("interpretation of part".toList), 52),
   (("children".toList), 53),
   (("persons with disabilities".toList), 54),
   (("youth".toList), 55),
   (("minorities and marginalised groups".toList), 56),
   (("older members of society".toList), 57),
   (("state of emergency".toList), 58),
   (("kenya national human rights and equality commission".toList), 59),
   (("principles of land policy".toList), 60),
   (("classification of land".toList), 61),
   (("public land".toList), 62),
   (("community land".toList), 63),
   (("private land".toList), 64),
   (("landholding by non-citizens".toList), 65),
   (("regulation of land use and property".toList), 66),
   (("national land commission".toList), 67),
   (("legislation on land".toList), 68),
   (("obligations in respect of the environment".toList), 69),
   (("enforcement of environmental rights".toList), 70),
   (("agreements relating to natural resources".toList), 71),
   (("legislation relating to the environment".toList), 72),
   (("responsibilities of leadership".toList), 73),
   (("oath of office of state officers".toList), 74),
   (("conduct of state officers".toList), 75),
   (("financial probity of state officers".toList), 76),
   (("restriction on activities of state officers".toList), 77),
   (("citizenship and leadership".toList), 78),
   (("legislation to establish the ethics and anti-corruption commission".toList), 79),
   (("legislation on leadership".toList), 80),
   (("general principles for the electoral system".toList), 81),
   (("legislation on elections".toList), 82),
   (("registration as a voter".toList), 83),
   (("candidates for election and political parties to comply with code of conduct".toList), 84),
   (("eligibility to stand as an independent candidate".toList), 85),
   (("voting".toList), 86),
   (("electoral disputes".toList), 87),
   (("independent electoral and boundaries commission".toList), 88),
   (("delimitation of electoral units".toList), 89),
   (("allocation of party list seats".toList), 90),
   (("basic requirements for political parties".toList), 91),
   (("legislation on political parties".toList), 92),
   (("establishment of parliament".toList), 93),
   (("role of parliament".toList), 94),
   (("role of the national assembly".toList), 95),
   (("role of the senate".toList), 96),
   (("membership of the national assembly".toList), 97),
   (("membership of the senate".toList), 98),
   (("qualifications and disqualifications for election as member of parliament".toList), 99),
   (("promotion of representation of marginalised groups".toList), 100),
   (("election of members of parliament".toList), 101),
   (("term of parliament".toList), 102),
   (("vacation of office of member of parliament".toList), 103),
   (("right of recall".toList), 104),
   (("determination of questions of membership".toList), 105),
   (("speakers and deputy speakers of parliament".toList), 106),
   (("presiding in parliament".toList), 107),
   (("party leaders".toList), 108),
   (("exercise of legislative powers".toList), 109),
   (("bills concerning county government".toList), 110),
   (("special bills concerning county governments".toList), 111),
   (("ordinary bills concerning county governments".toList), 112),
   (("mediation committees".toList), 113),
   (("money bills".toList), 114),
   (("presidential assent and referral".toList), 115),
   (("coming into force of laws".toList), 116),
   (("powers, privileges and immunities".toList), 117),
   (("public access and participation".toList), 118),
   (("right to petition parliament".toList), 119),
   (("official languages of parliament".toList), 120),
   (("quorum".toList), 121),
   (("voting in parliament".toList), 122),
   (("decisions of senate".toList), 123),
   (("committees and standing orders".toList), 124),
   (("power to call for evidence".toList), 125),
   (("location of sittings of parliament".toList), 126),
   (("parliamentary service commission".toList), 127),
   (("clerks and staff of parliament".toList), 128),
   (("principles of executive authority".toList), 129),
   (("the national executive".toList), 130),
   (("authority of the president".toList), 131),
   (("functions of the president".toList), 132),
   (("power of mercy".toList), 133),
   (("exercise of presidential powers during temporary incumbency".toList), 134),
   (("decisions of the president".toList), 135),
   (("election of the president".toList), 136),
   (("qualifications and disqualifications for election as president".toList), 137),
   (("procedure at presidential election".toList), 138),
   (("death before assuming office".toList), 139),
   (("questions as to validity of presidential election".toList), 140),
   (("assumption of office of president".toList), 141),
   (("term of office of president".toList), 142),
   (("protection from legal proceedings".toList), 143),
   (("removal of president on grounds of incapacity".toList), 144),
   (("removal of president by impeachment".toList), 145),
   (("vacancy in the office of president".toList), 146),
   (("functions of the deputy president".toList), 147),
   (("election and swearing-in of deputy president".toList), 148),
   (("vacancy in the office of deputy president".toList), 149),
   (("removal of deputy president".toList), 150),
   (("remuneration and benefits of president and deputy president".toList), 151),
   (("cabinet".toList), 152),
   (("decisions, responsibility and accountability of the cabinet".toList), 153),
   (("secretary to the cabinet".toList), 154),
   (("principal secretaries".toList), 155),
   (("attorney-general".toList), 156),
   (("director of public prosecutions".toList), 157),
   (("removal and resignation of director of public prosecutions".toList), 158),
   (("judicial authority".toList), 159),
   (("independence of the judiciary".toList), 160),
   (("judicial offices and officers".toList), 161),
   (("system of courts".toList), 162),
   (("supreme court".toList), 163),
   (("court of appeal".toList), 164),
   (("high court".toList), 165),
   (("appointment of chief justice, deputy chief justice and other judges".toList), 166),
   (("tenure of office of the chief justice and other judges".toList), 167),
   (("removal from office".toList), 251),
   (("subordinate courts".toList), 169),
   (("kadhis\x27 courts".toList), 170),
   (("establishment of the judicial service commission".toList), 171),
   (("functions of the judicial service commission".toList), 172),
   (("judiciary fund".toList), 173),
   (("objects of devolution".toList), 174),
   (("principles of devolved government".toList), 175),
   (("county governments".toList), 176),
   (("membership of county assembly".toList), 177),
   (("speaker of a county assembly".toList), 178),
   (("county executive committees".toList), 179),
   (("election of county governor and deputy county governor".toList), 180),
   (("removal of a county governor".toList), 181),
   (("vacancy in the office of county governor".toList), 182),
   (("functions of county executive committees".toList), 183),
   (("urban areas and cities".toList), 184),
   (("legislative authority of county assemblies".toList), 185),
   (("respective functions and powers of national and county governments".toList), 186),
   (("transfer of functions and powers between levels of government".toList), 187),
   (("boundaries of counties".toList), 188),
   (("cooperation between national and county governments".toList), 189),
   (("support for county governments".toList), 190),
   (("conflict of laws".toList), 191),
   (("suspension of a county government".toList), 192),
   (("suspension of county government".toList), 192),
   (("qualifications for election as member of county assembly".toList), 193),
   (("vacation of office of member of county assembly".toList), 194),
   (("county assembly power to summon witnesses".toList), 195),
   (("public participation and county assembly powers, privileges and immunities".toList), 196),
   (("county assembly gender balance and diversity".toList), 197),
   (("county government during transition".toList), 198),
   (("publication of county legislation".toList), 199),
   (("legislation on chapter".toList), 200),
   (("principles of public finance".toList), 201),
   (("equitable sharing of national revenue".toList), 202),
   (("equitable share and other financial laws".toList), 203),
   (("equalisation fund".toList), 204),
   (("consultation on financial legislation affecting counties".toList), 205),
   (("consolidated fund and other public funds".toList), 206),
   (("revenue funds for county governments".toList), 207),
   (("contingencies fund".toList), 208),
   (("power to impose taxes and charges".toList), 209),
   (("imposition of tax".toList), 210),
   (("borrowing by national government".toList), 211),
   (("borrowing by counties".toList), 212),
   (("loan guarantees by national government".toList), 213),
   (("public debt".toList), 214),
   (("commission on revenue allocation".toList), 215),
   (("functions of the commission on revenue allocation".toList), 216),
   (("division of revenue".toList), 217),
   (("annual division and allocation of revenue bills".toList), 218),
   (("transfer of equitable share".toList), 219),
   (("form, content and timing of budgets".toList), 220),
   (("budget estimates and annual appropriation bill".toList), 221),
   (("expenditure before annual budget is passed".toList), 222),
   (("supplementary appropriation".toList), 223),
   (("county appropriation bills".toList), 224),
   (("financial control".toList), 225),
   (("accounts and audit of public entities".toList), 226),
   (("procurement of public goods and services".toList), 227),
   (("controller of budget".toList), 228),
   (("auditor-general".toList), 229),
   (("salaries and remuneration commission".toList), 230),
   (("central bank of kenya".toList), 231),
   (("values and principles of public service".toList), 232),
   (("the public service commission".toList), 233),
   (("functions and powers of the public service commission".toList), 234),
   (("staffing of county governments".toList), 235),
   (("protection of public officers".toList), 236),
   (("teachers service commission".toList), 237),
   (("principles of national security".toList), 238),
   (("national security organs".toList), 239),
   (("establishment of the national security council".toList), 240),
   (("establishment of defence forces and defence council".toList), 241),
   (("establishment of kenya defence forces and defence council".toList), 241),
   (("establishment of national intelligence service".toList), 242),
   (("establishment of the national police service".toList), 243),
   (("objects and functions of the national police service".toList), 244),
   (("command of the national police service".toList), 245),
   (("national police service commission".toList), 246),
   (("other police services".toList), 247),
   (("application of chapter".toList), 248),
   (("objects, authority and funding of commissions and independent offices".toList), 249),
   (("composition, appointment and terms of office".toList), 250),
   (("general functions and powers".toList), 252),
   (("incorporation of commissions and independent offices".toList), 253),
   (("reporting by commissions and independent offices".toList), 254),
   (("amendment of this constitution".toList), 255),
   (("amendment by parliamentary initiative".toList), 256),
   (("amendment by popular initiative".toList), 257),
   (("enforcement of this constitution".toList), 258),
   (("construing this constitution".toList), 259),
   (("interpretation".toList), 260),
   (("consequential legislation".toList), 261),
   (("transitional and consequential provisions".toList), 262),
   (("effective date".toList), 263),
   (("repeal of previous constitution".toList), 264)]

/-- `get_article_number_map()`: the dict built from the literal. -/
def get_article_number_map : List (List Char × Nat) := pyDictOf articleMapEntries

/-- `re.sub(r'\s+', ' ', t)`: collapse every whitespace run to one
space.  Fuel (`length + 1`) keeps the recursion structural so that the
kernel can evaluate it. -/
def collapseWsGo : Nat → List Char → List Char
  | 0, _ => []
  | _, [] => []
  | fuel + 1, c :: rest =>
    if isPySpace c then ' ' :: collapseWsGo fuel (rest.dropWhile isPySpace)
    else c :: collapseWsGo fuel rest

def collapseWs (l : List Char) : List Char := collapseWsGo (l.length + 1) l

/-- `normalize_title(title)`.  `str.lower` is modelled as ASCII
`Char.toLower`; the source's quote-replacement line replaces the ASCII
apostrophe by itself (both arguments of the two `replace` calls are the
plain apostrophe in the source text), so it is the identity map here. -/
def normalize_title (title : List Char) : List Char :=
  let t := pyStrip (title.map Char.toLower)
  let t := t.map (fun c => if c = '\u2014' || c = '\u2013' then '-' else c)
  let t := t.map (fun c => if c = '\x27' then '\x27' else c)
  let t := t.foldr (fun c acc =>
    (if c = '\ufb01' then ['f', 'i'] else if c = '\ufb02' then ['f', 'l'] else [c]) ++ acc) []
  collapseWs t

/-- The numbering resolution of `parse_articles_improved` (lines
160-177): exact dict lookup, then the first prefix-related entry in
dict iteration order, then previous resolved number + 1 (0 + 1 when no
article has been resolved yet in this chapter).  `positions` is the
`article_positions` list built so far: (line index, title, number). -/
def resolveArticleNum (normalized : List Char)
    (positions : List (Nat × List Char × Nat)) : Nat :=
  match dictGet get_article_number_map normalized with
  | some n => n
  | none =>
    match get_article_number_map.find?
        (fun p => pyStartsWith normalized p.1 || pyStartsWith p.1 normalized) with
    | some p => p.2
    | none =>
      (match positions.getLast? with
       | some pos => pos.2.2
       | none => 0) + 1

/-- Well-formedness of a clause record as stated by the spec: the number
is a non-empty string of decimal digits and every sub-clause label is a
single lowercase letter. -/
def clauseOK (c : Clause) : Prop :=
  (c.number ≠ [] ∧ ∀ ch ∈ c.number, ch.isDigit = true) ∧
  ∀ sc ∈ c.subClauses, 'a' ≤ sc.label ∧ sc.label ≤ 'z'

/-- Invariant of the clause-parser state used to prove `clauseOK` of every
output clause. -/
def pcInv (s : PCState) : Prop :=
  (∀ p ∈ s.acc, clauseOK p.1) ∧ ∀ sc ∈ s.subs, 'a' ≤ sc.label ∧ sc.label ≤ 'z'

/-- Invariant of the clause-parser state used to prove that only the
first output clause can be implicit: any implicit open clause was opened
on an empty output with counter 1. -/
def pcOriginInv (s : PCState) : Prop :=
  ((∀ p ∈ s.acc.drop 1, p.2 = true) ∧
    ∀ p ∈ s.acc.take 1, p.2 = false → p.1.number = ['1']) ∧
  (s.cur = none → s.acc = [] ∧ s.implicit = 1) ∧
  ∀ n, s.cur = some (n, false) → s.acc = [] ∧ n = 1

/-! ## Document segmenter: preamble detection (`parse_constitution`) -/

def preambleMarker : List Char := "PREAMBLE".toList

def chapterOneMarker : List Char := "CHAPTER ONE".toList

/-- The `for i, line in enumerate(lines)` loop of `parse_constitution`
that locates the preamble: sets `preamble_start = i + 1` at the first
line with `line.strip() == "PREAMBLE"` and `i > 200` (while
`preamble_start` is still `None`), and breaks with `preamble_end = i`
at the first later line whose stripped content starts with
"CHAPTER ONE" (the `preamble_start and ... and i > preamble_start`
test, with Python truthiness of `preamble_start` modelled as `s ≠ 0`). -/
def findPreambleAux : List (List Char) → Nat → Option Nat → Option Nat × Option Nat
  | [], _, ps => (ps, none)
  | l :: rest, i, ps =>
    let t := pyStrip l
    let ps2 := if t = preambleMarker ∧ ps = none ∧ 200 < i then some (i + 1) else ps
    match ps2 with
    | some s =>
      if s ≠ 0 ∧ pyStartsWith t chapterOneMarker = true ∧ s < i then (some s, some i)
      else findPreambleAux rest (i + 1) (some s)
    | none => findPreambleAux rest (i + 1) none

def findPreamble (lines : List (List Char)) : Option Nat × Option Nat :=
  findPreambleAux lines 0 none

/-- The preamble-text filter: keep a stripped line iff it is non-empty,
does not start with "Constitution of Kenya", and is not the running
title. -/
def preambleLineKeep (l : List Char) : Option (List Char) :=
  let t := pyStrip l
  if t ≠ [] ∧ pyStartsWith t ("Constitution of Kenya".toList) = false ∧
      t ≠ ("THE CONSTITUTION OF KENYA".toList) then some t else none

/-- The preamble string of the result: lines strictly between start and
end, filtered and space-joined; empty when start or end is missing (or
zero, by Python truthiness). -/
def preambleTextOf (lines : List (List Char)) : List Char :=
  match findPreamble lines with
  | (some s, some e) =>
    if s ≠ 0 ∧ e ≠ 0 then
      List.intercalate [' ']
        (((lines.drop s).take (e - s)).filterMap preambleLineKeep)
    else []
  | _ => []

/-- First index `≥ i` (scanning a list whose head carries index `i`)
whose element satisfies the indexed predicate. -/
def firstIdxP (p : Nat → List Char → Bool) : Nat → List (List Char) → Option Nat
  | _, [] => none
  | i, l :: rest => if p i l then some i else firstIdxP p (i + 1) rest

/-- A line accepted as the preamble marker: trimmed content "PREAMBLE"
at index above 200. -/
def isLatePreambleLine (i : Nat) (l : List Char) : Bool :=
  decide (200 < i) && decide (pyStrip l = preambleMarker)

/-- A line ending the preamble started at index `s`: later than `s` and
starting (trimmed) with "CHAPTER ONE". -/
def isChapterOneAfter (s i : Nat) (l : List Char) : Bool :=
  decide (s < i) && pyStartsWith (pyStrip l) chapterOneMarker

/-- Concrete segmenter input: a table-of-contents "PREAMBLE" at line 50,
the real one at line 201, body at 202, "CHAPTER ONE" header at 203. -/
def c5Lines : List (List Char) :=
  (List.replicate 50 ([] : List Char)) ++ [("PREAMBLE".toList)] ++
  (List.replicate 150 ([] : List Char)) ++
  [("PREAMBLE".toList), ("We the people".toList),
   ("CHAPTER ONE—THE REPUBLIC".toList)]

/-! ## Chapter detection (`parse_constitution`, chapter loop) -/

/-- The alternation `ONE|TWO|...|EIGHTEEN` of the chapter pattern, in the
source's order, paired with the `word_to_num` values. -/
def chapterWords : List (List Char × Nat) :=
  [(("ONE".toList), 1), (("TWO".toList), 2), (("THREE".toList), 3),
   (("FOUR".toList), 4), (("FIVE".toList), 5), (("SIX".toList), 6),
   (("SEVEN".toList), 7), (("EIGHT".toList), 8), (("NINE".toList), 9),
   (("TEN".toList), 10), (("ELEVEN".toList), 11), (("TWELVE".toList), 12),
   (("THIRTEEN".toList), 13), (("FOURTEEN".toList), 14), (("FIFTEEN".toList), 15),
   (("SIXTEEN".toList), 16), (("SEVENTEEN".toList), 17), (("EIGHTEEN".toList), 18)]

/-- The regex alternation with backtracking: the first ordinal word that
is a prefix AND lets the rest of the pattern (`[—\-]([^\n]+)`) match.
Returns the chapter number, the (unstripped) title group, and the
remaining input after the match. -/
def chapterTitleGroup (r : List Char) : List Char :=
  r.takeWhile (fun c => c != '\n')

def matchChapterWord (l : List Char) : Option (Nat × List Char × List Char) :=
  chapterWords.findSome? (fun w =>
    if pyStartsWith l w.1 then
      match l.drop w.1.length with
      | d :: r =>
        if d = '—' ∨ d = '-' then
          if chapterTitleGroup r ≠ [] then
            some (w.2, chapterTitleGroup r, r.drop (chapterTitleGroup r).length)
          else none
        else none
      | [] => none
    else none)

/-- One attempt of the chapter pattern
`CHAPTER\s+(ONE|...|EIGHTEEN)[—\-]([^\n]+)` at the head of `l`: the
literal, one or more whitespace characters, then the alternation. -/
def matchChapterAt (l : List Char) : Option (Nat × List Char × List Char) :=
  if pyStartsWith l ("CHAPTER".toList) then
    if ((l.drop 7).dropWhile isPySpace).length = (l.drop 7).length then none
    else matchChapterWord ((l.drop 7).dropWhile isPySpace)
  else none

/-- One chapter-header match of `re.finditer`: absolute start and end
offsets, chapter number, raw title group. -/
structure ChMatch where
  mstart : Nat
  mend : Nat
  num : Nat
  title : List Char
deriving DecidableEq, Repr

/-- `re.finditer` of the chapter pattern: leftmost, non-overlapping
matches; scanning resumes at each match's end.  Fuel keeps the
recursion structural (each step consumes at least one character). -/
def findChapterMatchesAux : Nat → Nat → List Char → List ChMatch
  | 0, _, _ => []
  | _ + 1, _, [] => []
  | fuel + 1, pos, c :: tail =>
    match matchChapterAt (c :: tail) with
    | some (n, title, rest) =>
      let len := (c :: tail).length - rest.length
      ⟨pos, pos + len, n, title⟩ :: findChapterMatchesAux fuel (pos + len) rest
    | none => findChapterMatchesAux fuel (pos + 1) tail

def findChapterMatches (content : List Char) : List ChMatch :=
  findChapterMatchesAux (content.length + 1) 0 content

/-! ## Article detector (`parse_articles_improved`) -/

/-- One attempt of the page-marker pattern
`Constitution of Kenya,?\s*2010\s*\d*` at the head of `l`; on success
returns the input after the match. -/
def matchPageMarker (l : List Char) : Option (List Char) :=
  if pyStartsWith l ("Constitution of Kenya".toList) then
    let r0 := l.drop 21
    let r1 := match r0 with
      | ',' :: t => t
      | _ => r0
    let r2 := r1.dropWhile isPySpace
    if pyStartsWith r2 ("2010".toList) then
      some (((r2.drop 4).dropWhile isPySpace).dropWhile Char.isDigit)
    else none
  else none

/-- `re.sub` of the page-marker pattern with the empty string. -/
def replacePageMarkersGo : Nat → List Char → List Char
  | 0, _ => []
  | _ + 1, [] => []
  | fuel + 1, c :: tail =>
    match matchPageMarker (c :: tail) with
    | some rest => replacePageMarkersGo fuel rest
    | none => c :: replacePageMarkersGo fuel tail

def replacePageMarkers (l : List Char) : List Char :=
  replacePageMarkersGo (l.length + 1) l

/-- `re.match(r'^\d+\.', line)`: a leading decimal number followed by a
period (clause numbering, which disqualifies a title candidate). -/
def startsNumDot (l : List Char) : Bool :=
  let ds := l.takeWhile Char.isDigit
  !ds.isEmpty && ((l.drop ds.length).head? == some '.')

/-- The candidate-title test of the first pass: ends with a period, does
not start with '(', no leading number-period, trimmed length strictly
between 3 and 150. -/
def isArticleCandidate (line : List Char) : Bool :=
  (line.getLast? == some '.') && !(pyStartsWith line ("(".toList)) &&
  !(startsNumDot line) && decide (3 < line.length) && decide (line.length < 150)

/-- The look-ahead of the first pass: the next non-blank line, stripped
(`while j < len(lines) and not lines[j].strip(): j += 1`). -/
def firstNonBlank (rest : List (List Char)) : Option (List Char) :=
  rest.findSome? (fun l =>
    let t := pyStrip l
    if t = [] then none else some t)

/-- The confirmation test on the next non-blank line: starts with "(1)",
or starts with "(", or is non-empty running text (no trailing period,
not a part header). -/
def confirmsArticle (nl : List Char) : Bool :=
  pyStartsWith nl ("(1)".toList) || pyStartsWith nl ("(".toList) ||
  (!nl.isEmpty && !(nl.getLast? == some '.') &&
   !(pyStartsWith nl ("Part ".toList)) && !(pyStartsWith nl ("PART ".toList)))

/-- The first pass of `parse_articles_improved`: scan lines, skip blanks
and part headers, record each confirmed title as
(line index, stripped title without its period, resolved number),
resolving numbers against the positions recorded so far. -/
def findArticlePositionsAux : List (List Char) → Nat →
    List (Nat × List Char × Nat) → List (Nat × List Char × Nat)
  | [], _, acc => acc
  | l :: rest, i, acc =>
    let line := pyStrip l
    if line = [] ∨ pyStartsWith line ("Part ".toList) = true ∨
        pyStartsWith line ("PART ".toList) = true then
      findArticlePositionsAux rest (i + 1) acc
    else if isArticleCandidate line then
      match firstNonBlank rest with
      | some nl =>
        if confirmsArticle nl then
          findArticlePositionsAux rest (i + 1)
            (acc ++ [(i, pyStrip line.dropLast,
              resolveArticleNum (normalize_title (pyStrip line.dropLast)) acc)])
        else findArticlePositionsAux rest (i + 1) acc
      | none => findArticlePositionsAux rest (i + 1) acc
    else findArticlePositionsAux rest (i + 1) acc

/-- An article record `{"number": ..., "title": ..., "clauses": ...}`. -/
structure Article where
  number : Nat
  title : List Char
  clauses : List Clause
deriving DecidableEq, Repr

/-- The second pass: each article's body is the lines strictly between
its title line and the next confirmed title (or end of chapter). -/
def buildArticles (lines : List (List Char)) :
    List (Nat × List Char × Nat) → List Article
  | [] => []
  | (start_line, title, num) :: rest =>
    let end_line := match rest.head? with
      | some p => p.1
      | none => lines.length
    ⟨num, title,
      parse_clauses ((lines.drop (start_line + 1)).take (end_line - (start_line + 1)))⟩ ::
    buildArticles lines rest

/-- `parse_articles_improved(chapter_content, chapter_num)`. -/
def parse_articles_improved (chapter_content : List Char) (chapter_num : Nat) :
    List Article :=
  let cleaned := replacePageMarkers chapter_content
  let lines := cleaned.splitOn '\n'
  buildArticles lines (findArticlePositionsAux lines 0 [])

/-! ## Schedule extractor (`parse_schedules`) -/

structure County where
  number : Nat
  name : List Char
deriving DecidableEq, Repr

structure Verse where
  number : Nat
  kiswahili : List Char
  english : List Char
deriving DecidableEq, Repr

structure Oath where
  title : List Char
  reference : List Char
deriving DecidableEq, Repr

/-- The schedule-specific `content` payloads of the source, as a tagged
variant: a parsed county list for schedule 1, fixed static payloads for
schedules 2-6. -/
inductive ScheduleContent where
  | counties (cs : List County)
  | symbols (nationalFlag : List Char) (anthem : List Verse)
      (coatOfArms : List Char) (publicSeal : List Char)
  | oaths (os : List Oath)
  | distribution (nationalGovernment countyGovernments : List Char)
  | description (d : List Char)
deriving DecidableEq, Repr

structure Schedule where
  number : Nat
  title : List Char
  reference : List Char
  content : ScheduleContent
deriving DecidableEq, Repr

/-- The character class `[A-Za-z\s\-]` of the county pattern. -/
def countyClass (c : Char) : Bool :=
  ('A' ≤ c && c ≤ 'Z') || ('a' ≤ c && c ≤ 'z') || isPySpace c || c = '-'

/-- The lookahead `(?=\n|\d+\.|$)`: a newline next, or digits followed
by a period, or the end of the scanned text ('$' before a final
newline is subsumed by the newline alternative). -/
def countyLookahead (l : List Char) : Bool :=
  match l with
  | [] => true
  | '\n' :: _ => true
  | _ =>
    let ds := l.takeWhile Char.isDigit
    !ds.isEmpty && ((l.drop ds.length).head? == some '.')

/-- The lazy name group `([A-Za-z\s\-]+?)`: grow one character at a time
(at least one), checking the lookahead after each. -/
def countyTryName : List Char → List Char → Option (List Char × List Char)
  | [], _ => none
  | c :: rest, acc =>
    if countyClass c then
      let acc2 := acc ++ [c]
      if countyLookahead rest then some (acc2, rest)
      else countyTryName rest acc2
    else none

/-- The greedy `\s+`: try the longest whitespace run first and backtrack
one character at a time, handing the rest to the lazy name group. -/
def countyTryWs : Nat → List Char → Option (List Char × List Char)
  | 0, _ => none
  | k + 1, r2 =>
    match countyTryName (r2.drop (k + 1)) [] with
    | some res => some res
    | none => countyTryWs k r2

/-- One attempt of `(\d+)\.\s+([A-Za-z\s\-]+?)(?=\n|\d+\.|$)` at the
head of `l`: maximal digits, a period, then the backtracking
whitespace/name groups.  Returns (number, raw name group, rest). -/
def matchCounty (l : List Char) : Option (Nat × List Char × List Char) :=
  let ds := l.takeWhile Char.isDigit
  if ds.isEmpty then none
  else match l.drop ds.length with
    | '.' :: r2 =>
      let wsLen := (r2.takeWhile isPySpace).length
      match countyTryWs wsLen r2 with
      | some (name, rest) => some (natOfDigits ds, name, rest)
      | none => none
    | _ => none

/-- `re.finditer` of the county pattern: every match (number, raw name)
in encounter order, before any filtering. -/
def countyMatchesGo : Nat → List Char → List (Nat × List Char)
  | 0, _ => []
  | _ + 1, [] => []
  | fuel + 1, c :: tail =>
    match matchCounty (c :: tail) with
    | some (n, name, rest) => (n, name) :: countyMatchesGo fuel rest
    | none => countyMatchesGo fuel tail

def countyMatches (l : List Char) : List (Nat × List Char) :=
  countyMatchesGo (l.length + 1) l

/-- The county loop of the source: iterate the matches, strip the name,
keep entries with number ≤ 47 and a non-empty name, skip the rest and
continue. -/
def extractCountiesGo : Nat → List Char → List County
  | 0, _ => []
  | _ + 1, [] => []
  | fuel + 1, c :: tail =>
    match matchCounty (c :: tail) with
    | some (n, name, rest) =>
      if n ≤ 47 ∧ pyStrip name ≠ [] then
        ⟨n, pyStrip name⟩ :: extractCountiesGo fuel rest
      else extractCountiesGo fuel rest
    | none => extractCountiesGo fuel tail

def extractCounties (l : List Char) : List County :=
  extractCountiesGo (l.length + 1) l

/-- `re.search(r'FIRST SCHEDULE', ...)`: index of the first occurrence. -/
def findSubstringIdxAux (needle : List Char) : List Char → Nat → Option Nat
  | [], i => if pyStartsWith [] needle then some i else none
  | c :: t, i =>
    if pyStartsWith (c :: t) needle then some i
    else findSubstringIdxAux needle t (i + 1)

def findSubstringIdx (hay needle : List Char) : Option Nat :=
  findSubstringIdxAux needle hay 0

def firstScheduleMarker : List Char := "FIRST SCHEDULE".toList

/-- The hand-authored schedule-2 payload of the source. -/
def schedule2Content : ScheduleContent :=
  .symbols
    (("Three major strips of equal width coloured from top to bottom black, red and green and separated by narrow white strips, with a symmetrical shield and white spears superimposed centrally.".toList))
    [⟨1, ("Ee Mungu nguvu yetu, Ilete baraka kwetu. Haki iwe ngao na mlinzi, Natukae na undugu. Amani na uhuru, Raha tupate na ustawi.".toList),
        ("O God of all creation, Bless this our land and nation. Justice be our shield and defender, May we dwell in unity. Peace and liberty, Plenty be found within our borders.".toList)⟩,
     ⟨2, ("Amkeni ndugu zetu, Tufanye sote bidii. Nasi tujitoe kwa nguvu, Nchi yetu ya Kenya. Tunayoipenda, Tuwe tayari kuilinda.".toList),
        ("Let one and all arise, With hearts both strong and true. Service be our earnest endeavour, And our Homeland of Kenya. Heritage of splendour, Firm may we stand to defend.".toList)⟩,
     ⟨3, ("Natujenge taifa letu, Ee, ndio wajibu wetu. Kenya istahili heshima, Tuungane mikono. Pamoja kazini, Kila siku tuwe na shukrani.".toList),
        ("Let all with one accord, In common bond united. Build this our nation together, And the glory of Kenya. The fruit of our labour, Fill every heart with thanksgiving.".toList)⟩]
    (("The Coat of Arms features two lions holding spears, a shield with colors of the Kenyan flag, and a rooster holding an axe.".toList))
    (("The Public Seal of Kenya.".toList))

/-- The hand-authored schedule-3 payload of the source. -/
def schedule3Content : ScheduleContent :=
  .oaths
    [⟨("Oath/Affirmation of Office of President".toList), ("Article 141(3)".toList)⟩,
     ⟨("Oath/Affirmation of Office of Deputy President".toList), ("Article 148(5)".toList)⟩,
     ⟨("Oath/Affirmation of Office of Cabinet Secretary".toList), ("Article 152(4)".toList)⟩,
     ⟨("Oath/Affirmation of Office of Member of Parliament".toList), ("Article 74".toList)⟩,
     ⟨("Oath/Affirmation of Office of State Officer".toList), ("Article 74".toList)⟩]

/-- `parse_schedules(content_text)`: empty when "FIRST SCHEDULE" is
absent; otherwise the fixed six schedules, schedule 1's counties parsed
from the first 8000 characters of the schedule section. -/
def parse_schedules (content_text : List Char) : List Schedule :=
  match findSubstringIdx content_text firstScheduleMarker with
  | none => []
  | some idx =>
    let schedule_text := content_text.drop idx
    [⟨1, ("COUNTIES".toList), ("Article 6(1)".toList),
      .counties (extractCounties (schedule_text.take 8000))⟩,
     ⟨2, ("NATIONAL SYMBOLS".toList), ("Article 9(2)".toList), schedule2Content⟩,
     ⟨3, ("NATIONAL OATHS AND AFFIRMATIONS".toList),
      ("Articles 74, 141(3), 148(5), 152(4)".toList), schedule3Content⟩,
     ⟨4, ("DISTRIBUTION OF FUNCTIONS BETWEEN NATIONAL AND COUNTY GOVERNMENTS".toList),
      ("Articles 185(2), 186(1), 187(2)".toList),
      .distribution (("Functions assigned to the National Government".toList))
        (("Functions assigned to the County Governments".toList))⟩,
     ⟨5, ("LEGISLATION TO BE ENACTED BY PARLIAMENT".toList), ("Article 261(1)".toList),
      .description (("List of legislation required to be enacted by Parliament".toList))⟩,
     ⟨6, ("TRANSITIONAL AND CONSEQUENTIAL PROVISIONS".toList), ("Article 262".toList),
      .description (("Transitional and consequential provisions for the implementation of this Constitution".toList))⟩]

/-! ## The assembled pipeline (`parse_constitution`) -/

structure Chapter where
  number : Nat
  title : List Char
  articles : List Article
deriving DecidableEq, Repr

structure ParseResult where
  preamble : List Char
  chapters : List Chapter
  schedules : List Schedule
deriving DecidableEq, Repr

/-- `content.split('\n')`. -/
def linesOf (content : List Char) : List (List Char) := content.splitOn '\n'

/-- `content_start = preamble_end if preamble_end else 0` (Python
truthiness: `None` and `0` both fall back to 0). -/
def contentStartOf (lines : List (List Char)) : Nat :=
  match (findPreamble lines).2 with
  | some e => if e ≠ 0 then e else 0
  | none => 0

/-- `content_text = '\n'.join(lines[content_start:])`. -/
def contentTextOf (content : List Char) : List Char :=
  List.intercalate ['\n'] ((linesOf content).drop (contentStartOf (linesOf content)))

/-- The chapter loop: each chapter's body runs from its match end to the
next match start, or — for the last chapter — to the first
"FIRST SCHEDULE" occurrence after it, else to the end of the text. -/
def buildChapters (content_text : List Char) : List ChMatch → List Chapter
  | [] => []
  | m :: rest =>
    let cend := match rest.head? with
      | some m2 => m2.mstart
      | none =>
        match findSubstringIdx (content_text.drop m.mend) firstScheduleMarker with
        | some k => m.mend + k
        | none => content_text.length
    ⟨m.num, pyStrip m.title,
      parse_articles_improved ((content_text.drop m.mend).take (cend - m.mend)) m.num⟩ ::
    buildChapters content_text rest

/-- `parse_constitution` on the file's text content (after reading). -/
def parse_constitution (content : List Char) : ParseResult :=
  let lines := linesOf content
  let content_text := contentTextOf content
  { preamble := preambleTextOf lines
    chapters := buildChapters content_text (findChapterMatches content_text)
    schedules := parse_schedules content_text }

/-! ## Theorems -/

/-- C1 counterexample: on the spec's example input the clause parser does
not produce the claimed output.  `(a) alpha text` stays in clause 2's
text (it is the remainder group of the explicit-clause match), and
`(i) sub-i text` is captured by the sub-clause rule (a single lowercase
letter, which the sub-clause pattern matches before the roman-numeral
rule is ever tried), so no flattening into the last sub-clause occurs. -/
theorem c1_counterexample : parse_clauses c1Input ≠ c1Claimed := by decide

/-- C1 amended: on the body lines `["(1) First part.", "(2) (a) alpha
text", "(b) beta text", "(i) sub-i text"]` the result is two clauses:
clause "1" with text "First part." and no sub-clauses, and clause "2"
with text "(a) alpha text" and the two sub-clauses
{b, "beta text"} and {i, "sub-i text"}. -/
theorem c1_clause_parser_example :
    parse_clauses c1Input =
      [⟨"1".toList, "First part.".toList, []⟩,
       ⟨"2".toList, "(a) alpha text".toList,
        [⟨'b', "beta text".toList⟩, ⟨'i', "sub-i text".toList⟩]⟩] := by decide

/-- C2 counterexample: the line `(ii) world` bears a sub-sub-clause
(roman-numeral) marker and is encountered while the current clause has
no sub-clauses, yet it is not silently dropped: removing it changes the
output, because the line is appended to the clause's text. -/
theorem c2_counterexample :
    (List.foldl pcStep pcInit [("(1) hello".toList)]).subs = [] ∧
    (matchSubSub (pyStrip ("(ii) world".toList))).isSome = true ∧
    parse_clauses [("(1) hello".toList), ("(ii) world".toList)] ≠
      parse_clauses [("(1) hello".toList)] ∧
    parse_clauses [("(1) hello".toList), ("(ii) world".toList)] =
      [⟨"1".toList, "hello (ii) world".toList, []⟩] := by decide

/-- C2 amended: a non-blank, non-page-marker line bearing a roman-numeral
marker that is not an explicit clause marker, met while the current
clause has no sub-clauses, is not dropped.  If it also matches the
sub-clause pattern (single letter `i`/`v`/`x` with trailing text) and a
clause is open it becomes a sub-clause; otherwise it is appended to the
open clause's text, or opens an implicit clause when no clause is open. -/
theorem c2_roman_line_not_dropped (s : PCState) (raw : List Char)
    (h1 : pyStrip raw ≠ [])
    (h2 : pyStartsWith (pyStrip raw) ("Constitution of Kenya".toList) = false)
    (h3 : matchClause (pyStrip raw) = none)
    (_h4 : (matchSubSub (pyStrip raw)).isSome = true)
    (h5 : s.subs = []) :
    (∀ lab txt, matchSub (pyStrip raw) = some (lab, txt) → s.cur ≠ none →
        pcStep s raw = { s with subs := s.subs ++ [⟨lab, txt⟩] }) ∧
    (matchSub (pyStrip raw) = none → ∀ p, s.cur = some p →
        pcStep s raw = { s with text := s.text ++ [pyStrip raw] }) ∧
    (s.cur = none →
        pcStep s raw =
          { s with cur := some (s.implicit, false), implicit := s.implicit + 1,
                   text := [pyStrip raw], subs := [] }) := by
  refine ⟨?_, ?_, ?_⟩
  · intro lab txt hsub hcur
    obtain ⟨p, hp⟩ := Option.ne_none_iff_exists'.mp hcur
    simp only [pcStep, h1, h2, h3, hsub, hp, if_neg, Bool.false_eq_true, if_false]
  · intro hsub p hp
    simp only [pcStep, h1, h2, h3, hsub, hp, h5, Bool.false_eq_true, if_false]
    cases hss : matchSubSub (pyStrip raw) with
    | none => simp
    | some q => cases q with
      | mk ns rest => simp
  · intro hcur
    simp only [pcStep, h1, h2, h3, hcur, h5, Bool.false_eq_true, if_false]
    cases hms : matchSub (pyStrip raw) with
    | none => simp
    | some p => cases p with
      | mk lab txt => simp

/-- Witness for `c2_roman_line_not_dropped` at a concrete state and
line: `(ii) world` is appended to the open clause's text. -/
theorem c2_roman_line_not_dropped_witness :
    pcStep ⟨[], some (1, true), [("hello".toList)], [], 2⟩ ("(ii) world".toList) =
      { acc := [], cur := some (1, true),
        text := [("hello".toList), ("(ii) world".toList)], subs := [], implicit := 2 } := by
  have h := (c2_roman_line_not_dropped ⟨[], some (1, true), [("hello".toList)], [], 2⟩
      ("(ii) world".toList) (by decide) (by decide) (by decide) (by decide) rfl).2.1
      (by decide) (1, true) rfl
  rw [h]
  decide

theorem isDigit_ofNat_add48 {m : Nat} (h : m < 10) :
    (Char.ofNat (48 + m)).isDigit = true := by
  interval_cases m <;> decide

theorem natToCharsGo_digits (fuel : Nat) : ∀ (n : Nat) (acc : List Char),
    (∀ c ∈ acc, c.isDigit = true) → ∀ c ∈ natToCharsGo fuel n acc, c.isDigit = true := by
  induction fuel with
  | zero => intro n acc h c hc; exact h c hc
  | succ fuel ih =>
    intro n acc h c hc
    rw [natToCharsGo] at hc
    split at hc
    · exact h c hc
    · refine ih (n / 10) _ ?_ c hc
      intro d hd
      rcases List.mem_cons.mp hd with h1 | h1
      · subst h1; exact isDigit_ofNat_add48 (Nat.mod_lt _ (by decide))
      · exact h d h1

theorem natToCharsGo_length (fuel : Nat) : ∀ (n : Nat) (acc : List Char),
    acc.length ≤ (natToCharsGo fuel n acc).length := by
  induction fuel with
  | zero => intro n acc; simp [natToCharsGo]
  | succ fuel ih =>
    intro n acc
    rw [natToCharsGo]
    split
    · exact Nat.le_refl _
    · calc acc.length ≤ (Char.ofNat (48 + n % 10) :: acc).length := by simp
        _ ≤ _ := ih _ _

theorem natToChars_ne_nil (n : Nat) : natToChars n ≠ [] := by
  rw [natToChars]
  split
  · simp
  · rename_i h
    cases n with
    | zero => exact absurd rfl h
    | succ m =>
      rw [natToCharsGo, if_neg (Nat.succ_ne_zero m)]
      intro hnil
      have hl := natToCharsGo_length m ((m + 1) / 10)
        [Char.ofNat (48 + (m + 1) % 10)]
      rw [hnil] at hl
      simp at hl

theorem natToChars_digits (n : Nat) : ∀ c ∈ natToChars n, c.isDigit = true := by
  rw [natToChars]
  split
  · intro c hc; simp at hc; subst hc; decide
  · exact natToCharsGo_digits n n [] (by simp)

theorem matchSub_label {l : List Char} {c : Char} {txt : List Char}
    (h : matchSub l = some (c, txt)) : 'a' ≤ c ∧ c ≤ 'z' := by
  cases hs : stripOpenParen l with
  | nil => simp [matchSub, hs] at h
  | cons c0 r2 =>
    simp only [matchSub, hs] at h
    split_ifs at h with h1 h2
    simp only [Option.some.injEq, Prod.mk.injEq] at h
    obtain ⟨rfl, -⟩ := h
    simpa using h1

theorem appendToLast_labels {l : List SubClause} {suf : List Char}
    (h : ∀ sc ∈ l, 'a' ≤ sc.label ∧ sc.label ≤ 'z') :
    ∀ sc ∈ appendToLast l suf, 'a' ≤ sc.label ∧ sc.label ≤ 'z' := by
  induction l with
  | nil => intro sc hsc; simp [appendToLast] at hsc
  | cons a t ih =>
    intro x hx
    cases t with
    | nil =>
      simp only [appendToLast, List.mem_singleton] at hx
      subst hx
      exact h a (by simp)
    | cons b t2 =>
      simp only [appendToLast] at hx
      rcases List.mem_cons.mp hx with h1 | h1
      · rw [h1]; exact h a (by simp)
      · exact ih (fun y hy => h y (List.mem_cons_of_mem _ hy)) x h1

theorem flushAcc_clauseOK {s : PCState} (h : pcInv s) :
    ∀ p ∈ flushAcc s, clauseOK p.1 := by
  intro p hp
  unfold flushAcc at hp
  cases hcur : s.cur with
  | none => rw [hcur] at hp; exact h.1 p hp
  | some q =>
    obtain ⟨n, ex⟩ := q
    rw [hcur] at hp
    rcases List.mem_append.mp hp with h1 | h1
    · exact h.1 p h1
    · simp only [List.mem_singleton] at h1
      subst h1
      exact ⟨⟨natToChars_ne_nil _, natToChars_digits _⟩, h.2⟩

theorem pcStep_inv {s : PCState} (raw : List Char) (h : pcInv s) :
    pcInv (pcStep s raw) := by
  obtain ⟨hacc, hsubs⟩ := h
  by_cases hblank : pyStrip raw = []
  · simpa only [pcStep, if_pos hblank] using ⟨hacc, hsubs⟩
  by_cases hpm : pyStartsWith (pyStrip raw) ("Constitution of Kenya".toList) = true
  · simpa only [pcStep, if_neg hblank, if_pos hpm] using ⟨hacc, hsubs⟩
  cases hmc : matchClause (pyStrip raw) with
  | some p =>
    obtain ⟨n, rest⟩ := p
    simp only [pcStep, if_neg hblank, if_neg hpm, hmc]
    exact ⟨flushAcc_clauseOK ⟨hacc, hsubs⟩, by simp⟩
  | none =>
    cases hms : matchSub (pyStrip raw) with
    | some q =>
      obtain ⟨lab, txt⟩ := q
      cases hcur : s.cur with
      | some c =>
        simp only [pcStep, if_neg hblank, if_neg hpm, hmc, hms, hcur]
        refine ⟨hacc, ?_⟩
        intro sc hsc
        rcases List.mem_append.mp hsc with h1 | h1
        · exact hsubs sc h1
        · simp only [List.mem_singleton] at h1
          subst h1
          exact matchSub_label hms
      | none =>
        cases hmss : matchSubSub (pyStrip raw) with
        | some r =>
          obtain ⟨ns, rest⟩ := r
          cases hsubsE : s.subs with
          | nil =>
            simp only [pcStep, if_neg hblank, if_neg hpm, hmc, hms, hcur, hmss, hsubsE]
            exact ⟨hacc, by simp⟩
          | cons a t =>
            simp only [pcStep, if_neg hblank, if_neg hpm, hmc, hms, hcur, hmss, hsubsE]
            refine ⟨hacc, appendToLast_labels ?_⟩
            rw [← hsubsE]; exact hsubs
        | none =>
          simp only [pcStep, if_neg hblank, if_neg hpm, hmc, hms, hcur, hmss]
          exact ⟨hacc, by simp⟩
    | none =>
      cases hmss : matchSubSub (pyStrip raw) with
      | some r =>
        obtain ⟨ns, rest⟩ := r
        cases hsubsE : s.subs with
        | nil =>
          cases hcur : s.cur with
          | none =>
            simp only [pcStep, if_neg hblank, if_neg hpm, hmc, hms, hcur, hmss, hsubsE]
            exact ⟨hacc, by simp⟩
          | some c =>
            simp only [pcStep, if_neg hblank, if_neg hpm, hmc, hms, hcur, hmss, hsubsE]
            exact ⟨hacc, by rw [hsubsE] at hsubs; exact hsubs⟩
        | cons a t =>
          cases hcur : s.cur with
          | none =>
            simp only [pcStep, if_neg hblank, if_neg hpm, hmc, hms, hcur, hmss, hsubsE]
            refine ⟨hacc, appendToLast_labels ?_⟩
            rw [← hsubsE]; exact hsubs
          | some c =>
            simp only [pcStep, if_neg hblank, if_neg hpm, hmc, hms, hcur, hmss, hsubsE]
            refine ⟨hacc, appendToLast_labels ?_⟩
            rw [← hsubsE]; exact hsubs
      | none =>
        cases hcur : s.cur with
        | none =>
          simp only [pcStep, if_neg hblank, if_neg hpm, hmc, hms, hcur, hmss]
          exact ⟨hacc, by simp⟩
        | some c =>
          simp only [pcStep, if_neg hblank, if_neg hpm, hmc, hms, hcur, hmss]
          exact ⟨hacc, hsubs⟩

theorem pcInv_foldl (lines : List (List Char)) :
    ∀ s : PCState, pcInv s → pcInv (lines.foldl pcStep s) := by
  induction lines with
  | nil => intro s h; exact h
  | cons l rest ih => intro s h; exact ih _ (pcStep_inv l h)

/-- C8: for all inputs, every clause produced by the clause parser has a
non-empty all-decimal-digit `number`, and every sub-clause has a single
lowercase letter as `label`. -/
theorem c8_clause_wellformed (article_lines : List (List Char))
    (c : Clause) (hc : c ∈ parse_clauses article_lines) :
    (c.number ≠ [] ∧ ∀ ch ∈ c.number, ch.isDigit = true) ∧
    ∀ sc ∈ c.subClauses, 'a' ≤ sc.label ∧ sc.label ≤ 'z' := by
  obtain ⟨p, hp, rfl⟩ := List.mem_map.mp hc
  have hinv : pcInv (article_lines.foldl pcStep pcInit) :=
    pcInv_foldl article_lines pcInit (by constructor <;> simp [pcInit])
  exact flushAcc_clauseOK hinv p hp

/-- Witness for `c8_clause_wellformed` on the concrete article body
`["(3) x"]`. -/
theorem c8_clause_wellformed_witness :
    (("3".toList : List Char) ≠ [] ∧ ∀ ch ∈ ("3".toList : List Char), ch.isDigit = true) ∧
    ∀ sc ∈ ([] : List SubClause), 'a' ≤ sc.label ∧ sc.label ≤ 'z' :=
  c8_clause_wellformed [("(3) x".toList)] ⟨"3".toList, "x".toList, []⟩ (by decide)

theorem implicitFirst_append {l : List (Clause × Bool)} {x : Clause × Bool}
    (h1 : ∀ p ∈ l.drop 1, p.2 = true)
    (h2 : ∀ p ∈ l.take 1, p.2 = false → p.1.number = ['1'])
    (hx : x.2 = true) :
    (∀ p ∈ (l ++ [x]).drop 1, p.2 = true) ∧
    (∀ p ∈ (l ++ [x]).take 1, p.2 = false → p.1.number = ['1']) := by
  cases l with
  | nil =>
    constructor
    · intro p hp; simp at hp
    · intro p hp hflag
      simp only [List.nil_append, List.take_succ_cons, List.take_zero,
        List.mem_singleton] at hp
      subst hp
      exact absurd hflag (by simp [hx])
  | cons a t =>
    constructor
    · intro p hp
      simp only [List.cons_append, List.drop_succ_cons, List.drop_zero] at hp
      rcases List.mem_append.mp hp with h | h
      · exact h1 p (by simpa using h)
      · simp only [List.mem_singleton] at h; subst h; exact hx
    · intro p hp
      simp only [List.cons_append, List.take_succ_cons, List.take_zero,
        List.mem_singleton] at hp
      subst hp
      exact h2 p (by simp)

theorem flushAcc_origin {s : PCState} (h : pcOriginInv s) :
    (∀ p ∈ (flushAcc s).drop 1, p.2 = true) ∧
    (∀ p ∈ (flushAcc s).take 1, p.2 = false → p.1.number = ['1']) := by
  obtain ⟨⟨h1, h2⟩, hnone, himp⟩ := h
  unfold flushAcc
  cases hcur : s.cur with
  | none => exact ⟨h1, h2⟩
  | some q =>
    obtain ⟨n, ex⟩ := q
    cases ex with
    | true => exact implicitFirst_append h1 h2 rfl
    | false =>
      obtain ⟨haccnil, hn1⟩ := himp n hcur
      subst hn1
      rw [haccnil]
      constructor
      · intro p hp; simp at hp
      · intro p hp _
        simp only [List.nil_append, List.take_succ_cons, List.take_zero,
          List.mem_singleton] at hp
        subst hp
        rfl

theorem pcStep_origin {s : PCState} (raw : List Char) (h : pcOriginInv s) :
    pcOriginInv (pcStep s raw) := by
  obtain ⟨⟨h1, h2⟩, hnone, himp⟩ := h
  by_cases hblank : pyStrip raw = []
  · simpa only [pcStep, if_pos hblank] using ⟨⟨h1, h2⟩, hnone, himp⟩
  by_cases hpm : pyStartsWith (pyStrip raw) ("Constitution of Kenya".toList) = true
  · simpa only [pcStep, if_neg hblank, if_pos hpm] using ⟨⟨h1, h2⟩, hnone, himp⟩
  cases hmc : matchClause (pyStrip raw) with
  | some p =>
    obtain ⟨n, rest⟩ := p
    simp only [pcStep, if_neg hblank, if_neg hpm, hmc]
    refine ⟨flushAcc_origin ⟨⟨h1, h2⟩, hnone, himp⟩, by simp, ?_⟩
    intro m hm
    simp at hm
  | none =>
    cases hms : matchSub (pyStrip raw) with
    | some q =>
      obtain ⟨lab, txt⟩ := q
      cases hcur : s.cur with
      | some c =>
        simp only [pcStep, if_neg hblank, if_neg hpm, hmc, hms, hcur]
        refine ⟨⟨h1, h2⟩, by simp [hcur], ?_⟩
        intro m hm
        rw [hcur] at himp
        exact himp m hm
      | none =>
        have ⟨haccnil, himp1⟩ := hnone hcur
        cases hmss : matchSubSub (pyStrip raw) with
        | some r =>
          obtain ⟨ns, rest⟩ := r
          cases hsubsE : s.subs with
          | nil =>
            simp only [pcStep, if_neg hblank, if_neg hpm, hmc, hms, hcur, hmss, hsubsE]
            refine ⟨⟨h1, h2⟩, by simp, ?_⟩
            intro m hm
            simp only [Option.some.injEq, Prod.mk.injEq] at hm
            exact ⟨haccnil, by rw [← hm.1, himp1]⟩
          | cons a t =>
            simp only [pcStep, if_neg hblank, if_neg hpm, hmc, hms, hcur, hmss, hsubsE]
            refine ⟨⟨h1, h2⟩, fun _ => ⟨haccnil, himp1⟩, ?_⟩
            intro m hm
            exact absurd hm (by simp)
        | none =>
          simp only [pcStep, if_neg hblank, if_neg hpm, hmc, hms, hcur, hmss]
          refine ⟨⟨h1, h2⟩, by simp, ?_⟩
          intro m hm
          simp only [Option.some.injEq, Prod.mk.injEq] at hm
          exact ⟨haccnil, by rw [← hm.1, himp1]⟩
    | none =>
      cases hmss : matchSubSub (pyStrip raw) with
      | some r =>
        obtain ⟨ns, rest⟩ := r
        cases hsubsE : s.subs with
        | nil =>
          cases hcur : s.cur with
          | none =>
            have ⟨haccnil, himp1⟩ := hnone hcur
            simp only [pcStep, if_neg hblank, if_neg hpm, hmc, hms, hcur, hmss, hsubsE]
            refine ⟨⟨h1, h2⟩, by simp, ?_⟩
            intro m hm
            simp only [Option.some.injEq, Prod.mk.injEq] at hm
            exact ⟨haccnil, by rw [← hm.1, himp1]⟩
          | some c =>
            simp only [pcStep, if_neg hblank, if_neg hpm, hmc, hms, hcur, hmss, hsubsE]
            refine ⟨⟨h1, h2⟩, by simp, ?_⟩
            intro m hm
            rw [hcur] at himp
            exact himp m hm
        | cons a t =>
          cases hcur : s.cur with
          | none =>
            have ⟨haccnil, himp1⟩ := hnone hcur
            simp only [pcStep, if_neg hblank, if_neg hpm, hmc, hms, hcur, hmss, hsubsE]
            refine ⟨⟨h1, h2⟩, fun _ => ⟨haccnil, himp1⟩, ?_⟩
            intro m hm
            exact absurd hm (by simp)
          | some c =>
            simp only [pcStep, if_neg hblank, if_neg hpm, hmc, hms, hcur, hmss, hsubsE]
            refine ⟨⟨h1, h2⟩, by simp, ?_⟩
            intro m hm
            rw [hcur] at himp
            exact himp m hm
      | none =>
        cases hcur : s.cur with
        | none =>
          have ⟨haccnil, himp1⟩ := hnone hcur
          simp only [pcStep, if_neg hblank, if_neg hpm, hmc, hms, hcur, hmss]
          refine ⟨⟨h1, h2⟩, by simp, ?_⟩
          intro m hm
          simp only [Option.some.injEq, Prod.mk.injEq] at hm
          exact ⟨haccnil, by rw [← hm.1, himp1]⟩
        | some c =>
          simp only [pcStep, if_neg hblank, if_neg hpm, hmc, hms, hcur, hmss]
          refine ⟨⟨h1, h2⟩, by simp, ?_⟩
          intro m hm
          rw [hcur] at himp
          exact himp m hm

theorem pcOrigin_foldl (lines : List (List Char)) :
    ∀ s : PCState, pcOriginInv s → pcOriginInv (lines.foldl pcStep s) := by
  induction lines with
  | nil => intro s h; exact h
  | cons l rest ih => intro s h; exact ih _ (pcStep_origin l h)

/-- C10: in the clause parser's output, every clause after the first was
opened by an explicit `(N)` marker, and if the first clause was opened
implicitly its number is "1" — so at most one clause per article is
implicit, it can only be the first, and it is numbered 1. -/
theorem c10_implicit_clause_only_first (article_lines : List (List Char)) :
    (∀ p ∈ (parseClausesT article_lines).drop 1, p.2 = true) ∧
    (∀ p ∈ (parseClausesT article_lines).take 1, p.2 = false → p.1.number = ['1']) := by
  have hinv : pcOriginInv (article_lines.foldl pcStep pcInit) :=
    pcOrigin_foldl article_lines pcInit
      (by refine ⟨⟨by simp [pcInit], by simp [pcInit]⟩, fun _ => ⟨rfl, rfl⟩, ?_⟩
          intro n hn; simp [pcInit] at hn)
  exact flushAcc_origin hinv

/-- Witness for `c10_implicit_clause_only_first` on the concrete article
body `["hello"]`, whose single clause is implicit and numbered "1". -/
theorem c10_implicit_clause_only_first_witness :
    ((⟨"1".toList, "hello".toList, []⟩ : Clause), false).1.number = ['1'] :=
  (c10_implicit_clause_only_first [("hello".toList)]).2
    (⟨"1".toList, "hello".toList, []⟩, false) (by decide) rfl

set_option maxRecDepth 100000

set_option maxHeartbeats 1000000

theorem dictInsert_keys_nodup {α β : Type} [DecidableEq α] (d : List (α × β))
    (k : α) (v : β) (h : (d.map Prod.fst).Nodup) :
    ((dictInsert d k v).map Prod.fst).Nodup := by
  unfold dictInsert
  split
  · have heq : (d.map (fun p => if p.1 = k then (k, v) else p)).map Prod.fst
        = d.map Prod.fst := by
      rw [List.map_map]
      apply List.map_congr_left
      intro p _
      by_cases hp : p.1 = k
      · simp [hp]
      · simp [hp]
    rw [heq]; exact h
  · rename_i hany
    rw [List.map_append, List.nodup_append]
    refine ⟨h, by simp, ?_⟩
    intro a ha hb
    simp only [List.map_cons, List.map_nil, List.mem_singleton] at hb
    subst hb
    obtain ⟨p, hp, hpk⟩ := List.mem_map.mp ha
    exact hany (List.any_eq_true.mpr ⟨p, hp, by simp [hpk]⟩)

theorem pyDictOf_keys_nodup {α β : Type} [DecidableEq α] (l : List (α × β)) :
    ((pyDictOf l).map Prod.fst).Nodup := by
  suffices h : ∀ d : List (α × β), (d.map Prod.fst).Nodup →
      ((l.foldl (fun d p => dictInsert d p.1 p.2) d).map Prod.fst).Nodup by
    exact h [] (by simp)
  induction l with
  | nil => intro d hd; exact hd
  | cons p rest ih => intro d hd; exact ih _ (dictInsert_keys_nodup d p.1 p.2 hd)

theorem dictGet_of_mem {α β : Type} [DecidableEq α] {d : List (α × β)}
    (hnd : (d.map Prod.fst).Nodup) {k : α} {v : β} (hm : (k, v) ∈ d) :
    dictGet d k = some v := by
  induction d with
  | nil => simp at hm
  | cons q rest ih =>
    rw [List.map_cons, List.nodup_cons] at hnd
    rcases List.mem_cons.mp hm with h | h
    · subst h
      simp [dictGet, List.find?]
    · have hk : ¬q.1 = k := by
        intro he
        exact hnd.1 (he ▸ List.mem_map.mpr ⟨(k, v), h, rfl⟩)
      have hstep : dictGet (q :: rest) k = dictGet rest k := by
        simp [dictGet, List.find?, hk]
      rw [hstep]
      exact ih hnd.2 h

theorem dictGet_eq_none {α β : Type} [DecidableEq α] {d : List (α × β)} {k : α}
    (h : k ∉ d.map Prod.fst) : dictGet d k = none := by
  unfold dictGet
  rw [List.find?_eq_none.mpr]
  · rfl
  · intro p hp
    simp only [decide_eq_true_eq]
    intro he
    exact h (List.mem_map.mpr ⟨p, hp, he⟩)

theorem find?_append_cons {α : Type} (p : α → Bool) (d₁ : List α) (x : α)
    (d₂ : List α) (h1 : ∀ y ∈ d₁, p y = false) (h2 : p x = true) :
    List.find? p (d₁ ++ x :: d₂) = some x := by
  induction d₁ with
  | nil =>
    rw [List.nil_append]
    exact List.find?_cons_of_pos _ h2
  | cons a t ih =>
    have ha : p a = false := h1 a (by simp)
    rw [List.cons_append, List.find?_cons_of_neg _ (by simp [ha])]
    exact ih (fun y hy => h1 y (List.mem_cons_of_mem _ hy))

/-- Evaluating the Python dict construction on the 270 written entries
yields the 268-entry association list `articleMapList` (duplicate keys
keep their first position and take the last written value). -/
theorem get_article_number_map_eq : get_article_number_map = articleMapList := by
  decide

/-- C3 counterexample: the key "removal from office" is written twice in
the reference-table literal, once with 168 (chapter 10) and once with
251 (chapter 15) — two entries with the same key and different article
numbers. -/
theorem c3_counterexample :
    (("removal from office".toList, 168) ∈ articleMapEntries) ∧
    (("removal from office".toList, 251) ∈ articleMapEntries) ∧ (168 : Nat) ≠ 251 := by
  decide

/-- C3 amended: the reference-table literal has 270 written entries over
268 distinct keys; every entry's number agrees with the final dict
value of its key — so any two entries with the same key carry the same
number — except the key "removal from office", written with both 168
and 251 (the dict keeps 251); the written values cover every article
number 1..264, i.e. chapters 1 through 18. -/
theorem c3_article_map_contents :
    articleMapEntries.length = 270 ∧
    get_article_number_map.length = 268 ∧
    (∀ p ∈ articleMapEntries, p.1 = ("removal from office".toList) ∨
      dictGet get_article_number_map p.1 = some p.2) ∧
    ((articleMapEntries.filter
      (fun p => p.1 = ("removal from office".toList))).map Prod.snd = [168, 251]) ∧
    (List.range 264).all (fun i => articleMapEntries.any (fun p => p.2 = i + 1)) = true := by
  refine ⟨by decide, ?_, ?_, by decide, by decide⟩
  · rw [get_article_number_map_eq]; decide
  · simp only [get_article_number_map_eq]; decide

/-- C4: the Title Resolver is a three-tier rule.  Tier (a): on an exact
match of the normalized title against the table, the table value is
returned.  Tier (b): otherwise the value of the first table entry, in
table iteration order, whose key is a prefix of the normalized title or
of which the normalized title is a prefix.  Tier (c): otherwise the
previously resolved article number in the chapter plus 1, or 1 when
this is the chapter's first article — in particular every confirmed
title receives a number. -/
theorem c4_title_resolver_three_tier (title : List Char)
    (positions : List (Nat × List Char × Nat)) :
    (∀ n, (normalize_title title, n) ∈ get_article_number_map →
        resolveArticleNum (normalize_title title) positions = n) ∧
    (normalize_title title ∉ get_article_number_map.map Prod.fst →
      ∀ d₁ x d₂, get_article_number_map = d₁ ++ x :: d₂ →
        (pyStartsWith (normalize_title title) x.1 ||
          pyStartsWith x.1 (normalize_title title)) = true →
        (∀ y ∈ d₁, (pyStartsWith (normalize_title title) y.1 ||
          pyStartsWith y.1 (normalize_title title)) = false) →
        resolveArticleNum (normalize_title title) positions = x.2) ∧
    (normalize_title title ∉ get_article_number_map.map Prod.fst →
      (∀ y ∈ get_article_number_map,
        (pyStartsWith (normalize_title title) y.1 ||
          pyStartsWith y.1 (normalize_title title)) = false) →
      (positions = [] → resolveArticleNum (normalize_title title) positions = 1) ∧
      ∀ pos, positions.getLast? = some pos →
        resolveArticleNum (normalize_title title) positions = pos.2.2 + 1) := by
  refine ⟨?_, ?_, ?_⟩
  · intro n hmem
    have hnd : (get_article_number_map.map Prod.fst).Nodup :=
      pyDictOf_keys_nodup articleMapEntries
    unfold resolveArticleNum
    rw [dictGet_of_mem hnd hmem]
  · intro hkey d₁ x d₂ hdec hrel hfirst
    unfold resolveArticleNum
    rw [dictGet_eq_none hkey, hdec, find?_append_cons _ d₁ x d₂ hfirst hrel]
  · intro hkey hnorel
    have hget : dictGet get_article_number_map (normalize_title title) = none :=
      dictGet_eq_none hkey
    have hfind : get_article_number_map.find?
        (fun p => pyStartsWith (normalize_title title) p.1 ||
          pyStartsWith p.1 (normalize_title title)) = none :=
      List.find?_eq_none.mpr (fun y hy => by simp [hnorel y hy])
    constructor
    · intro hpos
      unfold resolveArticleNum
      rw [hget, hfind, hpos]
      rfl
    · intro pos hpos
      unfold resolveArticleNum
      rw [hget, hfind, hpos]

/-- Witness for `c4_title_resolver_three_tier`: one concrete input per
tier.  "Culture" matches exactly (article 11); "Supremacy of this
constitution II" is prefix-related to the table's second key (article
2); "zzzz" matches nothing and falls back to previous + 1 and to 1. -/
theorem c4_title_resolver_three_tier_witness :
    resolveArticleNum (normalize_title ("Culture".toList)) [] = 11 ∧
    resolveArticleNum (normalize_title ("Supremacy of this constitution II".toList)) [] = 2 ∧
    resolveArticleNum ("zzzz".toList) [] = 1 ∧
    resolveArticleNum ("zzzz".toList) [(0, ("t".toList), 41)] = 42 := by
  refine ⟨?_, ?_, ?_, ?_⟩
  · exact (c4_title_resolver_three_tier ("Culture".toList) []).1 11
      (by rw [get_article_number_map_eq]; decide)
  · exact (c4_title_resolver_three_tier ("Supremacy of this constitution II".toList) []).2.1
      (by rw [get_article_number_map_eq]; decide)
      [(("sovereignty of the people".toList), 1)]
      (("supremacy of this constitution".toList), 2)
      (articleMapList.drop 2)
      (by rw [get_article_number_map_eq]; rfl)
      (by decide) (by decide)
  · exact ((c4_title_resolver_three_tier ("zzzz".toList) []).2.2
      (by rw [get_article_number_map_eq]; decide)
      (by rw [get_article_number_map_eq]; decide)).1 rfl
  · exact ((c4_title_resolver_three_tier ("zzzz".toList) [(0, ("t".toList), 41)]).2.2
      (by rw [get_article_number_map_eq]; decide)
      (by rw [get_article_number_map_eq]; decide)).2 (0, ("t".toList), 41) rfl

theorem firstIdxP_ge {p : Nat → List Char → Bool} :
    ∀ (ls : List (List Char)) (i k : Nat), firstIdxP p i ls = some k → i ≤ k := by
  intro ls
  induction ls with
  | nil => intro i k h; simp [firstIdxP] at h
  | cons l rest ih =>
    intro i k h
    rw [firstIdxP] at h
    split at h
    · injection h with h'
      exact Nat.le_of_eq h'
    · exact Nat.le_of_succ_le (ih (i + 1) k h)

theorem findPreambleAux_fst_some :
    ∀ (ls : List (List Char)) (i s : Nat),
      (findPreambleAux ls i (some s)).1 = some s := by
  intro ls
  induction ls with
  | nil => intro i s; rfl
  | cons l rest ih =>
    intro i s
    rw [findPreambleAux]
    simp only [reduceCtorEq, and_false, false_and, if_false]
    split
    · rfl
    · exact ih (i + 1) s

theorem findPreambleAux_snd_some :
    ∀ (ls : List (List Char)) (i s : Nat), 0 < s →
      (findPreambleAux ls i (some s)).2 = firstIdxP (isChapterOneAfter s) i ls := by
  intro ls
  induction ls with
  | nil => intro i s _; rfl
  | cons l rest ih =>
    intro i s hs
    rw [findPreambleAux, firstIdxP]
    simp only [reduceCtorEq, and_false, false_and, if_false]
    by_cases hc : isChapterOneAfter s i l = true
    · have hc2 : s ≠ 0 ∧ pyStartsWith (pyStrip l) chapterOneMarker = true ∧ s < i := by
        have h0 := hc
        unfold isChapterOneAfter at h0
        simp only [Bool.and_eq_true, decide_eq_true_eq] at h0
        exact ⟨Nat.pos_iff_ne_zero.mp hs, h0.2, h0.1⟩
      rw [if_pos hc2, if_pos hc]
    · have hc2 : ¬(s ≠ 0 ∧ pyStartsWith (pyStrip l) chapterOneMarker = true ∧ s < i) := by
        rintro ⟨_, h2, h3⟩
        refine hc ?_
        unfold isChapterOneAfter
        simp only [Bool.and_eq_true, decide_eq_true_eq]
        exact ⟨h3, h2⟩
      rw [if_neg hc2, if_neg hc]
      exact ih (i + 1) s hs

theorem findPreambleAux_master :
    ∀ (ls : List (List Char)) (i : Nat),
      (match firstIdxP isLatePreambleLine i ls with
       | none => findPreambleAux ls i none = (none, none)
       | some k => (findPreambleAux ls i none).1 = some (k + 1) ∧
           (findPreambleAux ls i none).2 =
             firstIdxP (isChapterOneAfter (k + 1)) i ls) := by
  intro ls
  induction ls with
  | nil => intro i; simp [firstIdxP, findPreambleAux]
  | cons l rest ih =>
    intro i
    by_cases hp : isLatePreambleLine i l = true
    · have hp2 : pyStrip l = preambleMarker ∧ True ∧ 200 < i := by
        have h0 := hp
        unfold isLatePreambleLine at h0
        simp only [Bool.and_eq_true, decide_eq_true_eq] at h0
        exact ⟨h0.2, trivial, h0.1⟩
      have hbreak : ¬((i + 1) ≠ 0 ∧
          pyStartsWith (pyStrip l) chapterOneMarker = true ∧ i + 1 < i) := by
        rintro ⟨_, _, h3⟩
        omega
      have hfi : firstIdxP isLatePreambleLine i (l :: rest) = some i := by
        rw [firstIdxP, if_pos hp]
      have hstep : findPreambleAux (l :: rest) i none =
          findPreambleAux rest (i + 1) (some (i + 1)) := by
        simp only [findPreambleAux]
        rw [if_pos hp2]
        show (if (i + 1) ≠ 0 ∧ pyStartsWith (pyStrip l) chapterOneMarker = true ∧ i + 1 < i
              then ((some (i + 1) : Option Nat), (some i : Option Nat))
              else findPreambleAux rest (i + 1) (some (i + 1))) = _
        rw [if_neg hbreak]
      rw [hfi]
      show (findPreambleAux (l :: rest) i none).1 = some (i + 1) ∧
        (findPreambleAux (l :: rest) i none).2 =
          firstIdxP (isChapterOneAfter (i + 1)) i (l :: rest)
      rw [hstep]
      refine ⟨findPreambleAux_fst_some rest (i + 1) (i + 1), ?_⟩
      rw [findPreambleAux_snd_some rest (i + 1) (i + 1) (Nat.succ_pos i)]
      have hnotc : ¬(isChapterOneAfter (i + 1) i l = true) := by
        unfold isChapterOneAfter
        simp only [Bool.and_eq_true, decide_eq_true_eq, not_and]
        intro h3
        omega
      rw [firstIdxP, if_neg hnotc]
    · have hp2 : ¬(pyStrip l = preambleMarker ∧ True ∧ 200 < i) := by
        rintro ⟨h1, _, h3⟩
        refine hp ?_
        unfold isLatePreambleLine
        simp only [Bool.and_eq_true, decide_eq_true_eq]
        exact ⟨h3, h1⟩
      have hstep : findPreambleAux (l :: rest) i none =
          findPreambleAux rest (i + 1) none := by
        simp only [findPreambleAux]
        rw [if_neg hp2]
      have hfi : firstIdxP isLatePreambleLine i (l :: rest) =
          firstIdxP isLatePreambleLine (i + 1) rest := by
        rw [firstIdxP, if_neg hp]
      rw [hfi, hstep]
      have hrec := ih (i + 1)
      cases hfi2 : firstIdxP isLatePreambleLine (i + 1) rest with
      | none => rw [hfi2] at hrec; exact hrec
      | some k =>
        rw [hfi2] at hrec
        refine ⟨hrec.1, ?_⟩
        rw [hrec.2]
        have hnotc : ¬(isChapterOneAfter (k + 1) i l = true) := by
          unfold isChapterOneAfter
          simp only [Bool.and_eq_true, decide_eq_true_eq, not_and]
          intro h3
          have hk := firstIdxP_ge rest (i + 1) k hfi2
          omega
        rw [firstIdxP, if_neg hnotc]

/-- C5: a "PREAMBLE" line at index at most 200 is never accepted — the
accepted start is index + 1 of the first trimmed-"PREAMBLE" line at
index above 200 (`isLatePreambleLine`), and is `none` when no such line
exists; given start `s`, the preamble end is the first line at an index
above `s` whose trimmed content begins with "CHAPTER ONE"
(`isChapterOneAfter`); and when no end is found the preamble text of
the output is the empty string. -/
theorem c5_preamble_detection (lines : List (List Char)) :
    ((findPreamble lines).1 =
      (firstIdxP isLatePreambleLine 0 lines).map (· + 1)) ∧
    (∀ s, (findPreamble lines).1 = some s →
      (findPreamble lines).2 = firstIdxP (isChapterOneAfter s) 0 lines) ∧
    ((findPreamble lines).1 = none → (findPreamble lines).2 = none) ∧
    ((findPreamble lines).2 = none → preambleTextOf lines = []) := by
  have hm := findPreambleAux_master lines 0
  refine ⟨?_, ?_, ?_, ?_⟩
  · cases hfi : firstIdxP isLatePreambleLine 0 lines with
    | none =>
      rw [hfi] at hm
      unfold findPreamble
      rw [hm]
      rfl
    | some k =>
      rw [hfi] at hm
      unfold findPreamble
      simpa using hm.1
  · intro s hs
    cases hfi : firstIdxP isLatePreambleLine 0 lines with
    | none =>
      rw [hfi] at hm
      unfold findPreamble at hs
      rw [hm] at hs
      exact absurd hs (by simp)
    | some k =>
      rw [hfi] at hm
      unfold findPreamble at hs ⊢
      have hk : s = k + 1 := by
        rw [hm.1] at hs
        injection hs with h'
        exact h'.symm
      subst hk
      exact hm.2
  · intro h1
    cases hfi : firstIdxP isLatePreambleLine 0 lines with
    | none =>
      rw [hfi] at hm
      unfold findPreamble
      rw [hm]
    | some k =>
      rw [hfi] at hm
      unfold findPreamble at h1
      rw [hm.1] at h1
      exact absurd h1 (by simp)
  · intro h2
    unfold preambleTextOf
    rcases hfp : findPreamble lines with ⟨st, en⟩
    have hen : en = none := by rw [hfp] at h2; exact h2
    subst hen
    cases st <;> rfl

/-- Witness for `c5_preamble_detection` on `c5Lines`: the line-50
"PREAMBLE" is skipped, the line-201 occurrence gives start 202, the
"CHAPTER ONE" header at 203 gives the end; and a marker-less input has
empty preamble text. -/
theorem c5_preamble_detection_witness :
    (findPreamble c5Lines).1 = some 202 ∧
    (findPreamble c5Lines).2 = some 203 ∧
    preambleTextOf [("no marker here".toList)] = [] := by
  refine ⟨?_, ?_, ?_⟩
  · rw [(c5_preamble_detection c5Lines).1]
    decide
  · have hs : (findPreamble c5Lines).1 = some 202 := by
      rw [(c5_preamble_detection c5Lines).1]
      decide
    rw [(c5_preamble_detection c5Lines).2.1 202 hs]
    decide
  · exact (c5_preamble_detection [("no marker here".toList)]).2.2.2 (by decide)


theorem findSome?_exists {α β : Type} {f : α → Option β} :
    ∀ {l : List α} {b : β}, l.findSome? f = some b → ∃ a ∈ l, f a = some b := by
  intro l
  induction l with
  | nil => intro b h; simp [List.findSome?] at h
  | cons a t ih =>
    intro b h
    rw [List.findSome?_cons] at h
    cases hfa : f a with
    | some v =>
      rw [hfa] at h
      refine ⟨a, by simp, ?_⟩
      rw [hfa]
      exact h
    | none =>
      rw [hfa] at h
      obtain ⟨x, hx, hfx⟩ := ih h
      exact ⟨x, List.mem_cons_of_mem _ hx, hfx⟩

theorem chapterWords_snd_bounds : ∀ n ∈ chapterWords.map Prod.snd, 1 ≤ n ∧ n ≤ 18 := by
  decide

theorem matchChapterWord_num {l : List Char} {n : Nat} {t r : List Char}
    (h : matchChapterWord l = some (n, t, r)) : 1 ≤ n ∧ n ≤ 18 := by
  obtain ⟨w, hw, hfw⟩ := findSome?_exists h
  have hn : n = w.2 := by
    split at hfw
    · split at hfw
      · split at hfw
        · split at hfw
          · injection hfw with h1
            exact congrArg Prod.fst h1.symm
          · exact absurd hfw (by simp)
        · exact absurd hfw (by simp)
      · exact absurd hfw (by simp)
    · exact absurd hfw (by simp)
  exact hn ▸ chapterWords_snd_bounds w.2 (List.mem_map.mpr ⟨w, hw, rfl⟩)

theorem matchChapterAt_num {l : List Char} {n : Nat} {t r : List Char}
    (h : matchChapterAt l = some (n, t, r)) : 1 ≤ n ∧ n ≤ 18 := by
  unfold matchChapterAt at h
  split at h
  · split at h
    · exact absurd h (by simp)
    · exact matchChapterWord_num h
  · exact absurd h (by simp)

theorem findChapterMatchesAux_num : ∀ (fuel pos : Nat) (l : List Char) (m : ChMatch),
    m ∈ findChapterMatchesAux fuel pos l → 1 ≤ m.num ∧ m.num ≤ 18 := by
  intro fuel
  induction fuel with
  | zero => intro pos l m hm; simp [findChapterMatchesAux] at hm
  | succ fuel ih =>
    intro pos l m hm
    cases l with
    | nil => simp [findChapterMatchesAux] at hm
    | cons c tail =>
      simp only [findChapterMatchesAux] at hm
      cases hmc : matchChapterAt (c :: tail) with
      | some p =>
        obtain ⟨n, title, rest⟩ := p
        rw [hmc] at hm
        rcases List.mem_cons.mp hm with h | h
        · subst h; exact matchChapterAt_num hmc
        · exact ih _ _ _ h
      | none =>
        rw [hmc] at hm
        exact ih _ _ _ hm

theorem buildChapters_mem {ct : List Char} : ∀ {ms : List ChMatch} {ch : Chapter},
    ch ∈ buildChapters ct ms → ∃ m ∈ ms, ch.number = m.num := by
  intro ms
  induction ms with
  | nil => intro ch h; simp [buildChapters] at h
  | cons m rest ih =>
    intro ch h
    simp only [buildChapters] at h
    rcases List.mem_cons.mp h with h1 | h1
    · exact ⟨m, by simp, by rw [h1]⟩
    · obtain ⟨m2, hm2, he⟩ := ih h1
      exact ⟨m2, List.mem_cons_of_mem _ hm2, he⟩

/-- The input of the C6 counterexample: two chapter headers out of
order. -/
def c6Input : List Char := ("CHAPTER TWO-A\nCHAPTER ONE-B".toList)

/-- C6 counterexample: the assembled chapter-number sequence follows the
order in which headers occur in the text, which nothing forces to be
increasing — this input yields [2, 1]. -/
theorem c6_counterexample :
    ((parse_constitution c6Input).chapters.map Chapter.number = [2, 1]) ∧
    ¬ List.Pairwise (· < ·) ((parse_constitution c6Input).chapters.map Chapter.number) := by
  decide

/-- C6 amended: every chapter number in the assembled document lies
between 1 and 18 (it is the `word_to_num` value of a matched header
word); the sequence follows header order and need not be increasing. -/
theorem c6_chapter_number_bounds (content : List Char) (ch : Chapter)
    (hch : ch ∈ (parse_constitution content).chapters) :
    1 ≤ ch.number ∧ ch.number ≤ 18 := by
  obtain ⟨m, hm, he⟩ := buildChapters_mem hch
  rw [he]
  exact findChapterMatchesAux_num _ _ _ m hm

/-- Witness for `c6_chapter_number_bounds` at the first chapter of
`c6Input`. -/
theorem c6_chapter_number_bounds_witness :
    1 ≤ (Chapter.mk 2 (['A']) []).number ∧ (Chapter.mk 2 (['A']) []).number ≤ 18 :=
  c6_chapter_number_bounds c6Input ⟨2, ['A'], []⟩ (by decide)

theorem extractCountiesGo_eq : ∀ (fuel : Nat) (l : List Char),
    extractCountiesGo fuel l =
      ((countyMatchesGo fuel l).filter
        (fun p => decide (p.1 ≤ 47) && decide (pyStrip p.2 ≠ []))).map
        (fun p => (⟨p.1, pyStrip p.2⟩ : County)) := by
  intro fuel
  induction fuel with
  | zero => intro l; rfl
  | succ fuel ih =>
    intro l
    cases l with
    | nil => rfl
    | cons c tail =>
      rw [extractCountiesGo, countyMatchesGo]
      cases hm : matchCounty (c :: tail) with
      | none => exact ih tail
      | some t =>
        obtain ⟨n, name, rest⟩ := t
        show (if n ≤ 47 ∧ pyStrip name ≠ [] then
                (⟨n, pyStrip name⟩ : County) :: extractCountiesGo fuel rest
              else extractCountiesGo fuel rest) =
          List.map (fun p => (⟨p.1, pyStrip p.2⟩ : County))
            (List.filter (fun p => decide (p.1 ≤ 47) && decide (pyStrip p.2 ≠ []))
              ((n, name) :: countyMatchesGo fuel rest))
        by_cases hc : n ≤ 47 ∧ pyStrip name ≠ []
        · rw [if_pos hc]
          rw [List.filter_cons_of_pos (by simpa using hc)]
          rw [List.map_cons]
          rw [ih rest]
        · rw [if_neg hc]
          rw [List.filter_cons_of_neg (by simpa using hc)]
          exact ih rest

theorem extractCounties_eq (l : List Char) :
    extractCounties l =
      ((countyMatches l).filter
        (fun p => decide (p.1 ≤ 47) && decide (pyStrip p.2 ≠ []))).map
        (fun p => (⟨p.1, pyStrip p.2⟩ : County)) :=
  extractCountiesGo_eq (l.length + 1) l

/-- The input of the C7 counterexample: a digit-dot entry whose name
group matches only a whitespace character. -/
def c7Input : List Char := ("FIRST SCHEDULE\n1. \n".toList)

/-- C7 counterexample: the scanned prefix contains a county-pattern
match with number 1 ≤ 47 (its name group is the bare newline), yet
schedule 1's content is empty — the code additionally requires the
stripped name to be non-empty, so this entry is dropped even though its
number is in range. -/
theorem c7_counterexample :
    (parse_schedules c7Input).head? =
      some ⟨1, ("COUNTIES".toList), ("Article 6(1)".toList), .counties []⟩ ∧
    countyMatches (c7Input.take 8000) = [(1, ['\n'])] ∧ (1 : Nat) ≤ 47 := by
  decide

/-- C7 amended: schedule 1's content contains exactly the county-pattern
matches of the first 8000 characters of the schedule section whose
number is at most 47 and whose stripped name is non-empty, in encounter
order, as {number, stripped name}; any other match is omitted and the
scan continues. -/
theorem c7_schedule1_counties (content : List Char) (idx : Nat)
    (h : findSubstringIdx content firstScheduleMarker = some idx) :
    (parse_schedules content).head? =
      some ⟨1, ("COUNTIES".toList), ("Article 6(1)".toList),
        .counties (((countyMatches ((content.drop idx).take 8000)).filter
            (fun p => decide (p.1 ≤ 47) && decide (pyStrip p.2 ≠ []))).map
          (fun p => (⟨p.1, pyStrip p.2⟩ : County)))⟩ := by
  unfold parse_schedules
  rw [h]
  rw [show ((content.drop idx).take 8000) = ((content.drop idx).take 8000) from rfl]
  rw [← extractCounties_eq ((content.drop idx).take 8000)]
  rfl

/-- Witness input for `c7_schedule1_counties`: two valid counties, an
out-of-range entry, then another valid one. -/
def c7WitnessInput : List Char :=
  ("FIRST SCHEDULE\n1. Mombasa\n2. Kwale\n99. Big\n3. Kilifi\n".toList)

/-- Witness for `c7_schedule1_counties`: the out-of-range entry 99 is
omitted and extraction continues with county 3. -/
theorem c7_schedule1_counties_witness :
    (parse_schedules c7WitnessInput).head? =
      some ⟨1, ("COUNTIES".toList), ("Article 6(1)".toList),
        .counties [⟨1, ("Mombasa".toList)⟩, ⟨2, ("Kwale".toList)⟩,
                   ⟨3, ("Kilifi".toList)⟩]⟩ := by
  rw [c7_schedule1_counties c7WitnessInput 0 (by decide)]
  decide

/-- C9: parsing is total (this embedding is a function) and degrades
gracefully: when no accepted preamble start exists the output preamble
is empty; when no chapter header matches, the chapter list is empty;
and the schedule section is always sought from the start of the
content text, chapters or not. -/
theorem c9_graceful_degradation (content : List Char) :
    ((findPreamble (linesOf content)).1 = none →
      (parse_constitution content).preamble = []) ∧
    (findChapterMatches (contentTextOf content) = [] →
      (parse_constitution content).chapters = []) ∧
    (parse_constitution content).schedules = parse_schedules (contentTextOf content) := by
  refine ⟨?_, ?_, rfl⟩
  · intro h
    show preambleTextOf (linesOf content) = []
    unfold preambleTextOf
    rcases hfp : findPreamble (linesOf content) with ⟨st, en⟩
    rw [hfp] at h
    simp only at h
    subst h
    cases en <;> rfl
  · intro h
    show buildChapters (contentTextOf content)
      (findChapterMatches (contentTextOf content)) = []
    rw [h]
    rfl

/-- Witness for `c9_graceful_degradation` on an input with no markers at
all. -/
theorem c9_graceful_degradation_witness :
    (parse_constitution ("hello world".toList)).preamble = [] ∧
    (parse_constitution ("hello world".toList)).chapters = [] :=
  ⟨(c9_graceful_degradation ("hello world".toList)).1 (by decide),
   (c9_graceful_degradation ("hello world".toList)).2.1 (by decide)⟩

end Katiba

